import Mathlib

/-!
Verification of the OgreMax XML loader (`src/OgreMaxLoader.js`) against its
natural-language specification.

The JavaScript source is shallowly embedded: each parser becomes a Lean
function over explicit data structures that mirror the attributes and child
elements the source reads from the DOM.  JavaScript numbers are modelled as
rationals where the code only stores and compares them, and as an explicit
IEEE-style type (`JSNum`, with NaN and signed infinities over the reals)
where the code can observe non-finite values.  Fallible parsing is modelled
with `Except OgreMaxError`.
-/

namespace OgreMax

/-- Error categories of `OgreMaxError` / `DotMaterialError` in the source
(`E_IO`, `E_XML`, `E_FORMAT`, `E_RANGE`, `E_RUNTIME`). -/
inductive ErrCode where
  | ioErr
  | xmlErr
  | formatErr
  | rangeErr
  | runtimeErr
deriving DecidableEq, Repr

/-- `class OgreMaxError extends Error`: a stable code plus a human-readable
detail message (the `meta` payload is not modelled). -/
structure OgreMaxError where
  code : ErrCode
  detail : String
deriving DecidableEq, Repr

/-! ## Skin-weight packing (`#parseBoneassignments`, lines 605-641)

A `<vertexboneassignment>` / `<boneassignment>` record carries the parsed
`vertexindex`, `boneindex` (via `#attrInt`) and `weight` (via `#attrFloat`,
default 0).  Weights are only stored and compared against `0`, so they are
modelled as rationals. -/

structure VertexBoneAssignment where
  vertexindex : Nat
  boneindex : Nat
  weight : Rat
deriving DecidableEq, Repr

/-- The initialisation loop of `#parseBoneassignments`:
`for (let v = baseVertex; v < endVertex; ++v) { skinIdx.push(0,0,0,0); skinWgt.push(0,0,0,0); }`
appends `
(endVertex - baseVertex) * 4` zero slots to each accumulator. -/
def initSkinSlots (skinIdx : List Nat) (skinWgt : List Rat)
    (baseVertex endVertex : Nat) : List Nat × List Rat :=
  (skinIdx ++ List.replicate ((endVertex - baseVertex) * 4) 0,
   skinWgt ++ List.replicate ((endVertex - baseVertex) * 4) 0)

/-- The slot search of `#parseBoneassignments`:
`for (let s = 0; s < 4; ++s) { const off = vAbs * 4 + s; if (skinWgt[off] === 0) ... }`.
Javascript `skinWgt[off] === 0` is `get? off = some 0` (an out-of-bounds read
yields `undefined`, which is not strictly equal to `0`). -/
def findFreeSlot (skinWgt : List Rat) (vAbs : Nat) : Option Nat :=
  (List.range 4).find? fun s => decide (skinWgt.get? (vAbs * 4 + s) = some 0)

/-- Message of the out-of-range error in `#parseBoneassignments`. -/
def vertexRangeMsg (vIndex b e : Nat) : String :=
  s!"vertexindex {vIndex} out of range (base {b}, end {e})"

/-- Message of the too-many-influences error in `#parseBoneassignments`;
it names the offending vertex id. -/
def influencesMsg (vIndex : Nat) : String :=
  s!"More than 4 bone influences for vertex {vIndex}"

/-- Processing of one assignment record inside `#parseBoneassignments`. -/
def assignBone (baseVertex endVertex : Nat) (st : List Nat × List Rat)
    (a : VertexBoneAssignment) : Except OgreMaxError (List Nat × List Rat) :=
  if endVertex ≤ baseVertex + a.vertexindex then
    .error ⟨.rangeErr, vertexRangeMsg a.vertexindex baseVertex endVertex⟩
  else
    match findFreeSlot st.2 (baseVertex + a.vertexindex) with
    | some s =>
        .ok (st.1.set ((baseVertex + a.vertexindex) * 4 + s) a.boneindex,
             st.2.set ((baseVertex + a.vertexindex) * 4 + s) a.weight)
    | none =>
        .error ⟨.formatErr, influencesMsg a.vertexindex⟩

/-- The `for (const assignmentNode of assignmentNodes)` loop: the records are
processed in document order, the first thrown error aborting the loop. -/
def processAssignments (baseVertex endVertex : Nat) :
    List VertexBoneAssignment → (List Nat × List Rat) →
    Except OgreMaxError (List Nat × List Rat)
  | [], st => .ok st
  | a :: as, st =>
      match assignBone baseVertex endVertex st a with
      | .error err => .error err
      | .ok st1 => processAssignments baseVertex endVertex as st1

/-- `#parseBoneassignments(XMLNode, skinIdx, skinWgt, baseVertex, endVertex)`:
initialise the slots, then process each assignment record in document order.
The only call site (`#parseSubmesh`, line 791) passes fresh empty arrays and
`baseVertex = 0`, `endVertex = vertices.length`. -/
def parseBoneassignments (assignments : List VertexBoneAssignment)
    (skinIdx : List Nat) (skinWgt : List Rat) (baseVertex endVertex : Nat) :
    Except OgreMaxError (List Nat × List Rat) :=
  processAssignments baseVertex endVertex assignments
    (initSkinSlots skinIdx skinWgt baseVertex endVertex)

/-- Unfolding of the four-slot search as nested conditionals. -/
theorem findFreeSlot_eq (w : List Rat) (v : Nat) :
    findFreeSlot w v =
      (if w.get? (v * 4) = some 0 then some 0
       else if w.get? (v * 4 + 1) = some 0 then some 1
       else if w.get? (v * 4 + 2) = some 0 then some 2
       else if w.get? (v * 4 + 3) = some 0 then some 3
       else none) := by
  have hr : List.range 4 = [0, 1, 2, 3] := rfl
  unfold findFreeSlot
  rw [hr]
  simp only [List.get?_eq_getElem?, Nat.add_zero]
  by_cases h0 : w[v * 4]? = some (0 : Rat) <;>
    by_cases h1 : w[v * 4 + 1]? = some (0 : Rat) <;>
      by_cases h2 : w[v * 4 + 2]? = some (0 : Rat) <;>
        by_cases h3 : w[v * 4 + 3]? = some (0 : Rat) <;>
          simp [List.find?, h0, h1, h2, h3]

/-- A successful `assignBone` writes the authored pair into some slot. -/
theorem assignBone_ok_shape (b e : Nat) (st : List Nat × List Rat)
    (a : VertexBoneAssignment) (st' : List Nat × List Rat)
    (h : assignBone b e st a = .ok st') :
    ∃ off, st' = (st.1.set off a.boneindex, st.2.set off a.weight) := by
  unfold assignBone at h
  split at h
  · cases h
  · split at h
    · exact ⟨_, by injection h with h; exact h.symm⟩
    · cases h

/-- Invariant: the assignment loop only ever writes authored weights into
the weight array. -/
theorem processAssignments_mem (b e : Nat) :
    ∀ (as : List VertexBoneAssignment) (st st' : List Nat × List Rat),
      processAssignments b e as st = .ok st' →
      ∀ w ∈ st'.2, w ∈ st.2 ∨ w ∈ as.map (fun a => a.weight) := by
  intro as
  induction as with
  | nil =>
      intro st st' h w hw
      unfold processAssignments at h
      cases h
      exact Or.inl hw
  | cons a as ih =>
      intro st st' h w hw
      unfold processAssignments at h
      cases h1 : assignBone b e st a with
      | error err => rw [h1] at h; cases h
      | ok st1 =>
          rw [h1] at h
          obtain ⟨off, hoff⟩ := assignBone_ok_shape b e st a st1 h1
          rcases ih st1 st' h w hw with hmem | hmem
          · rw [hoff] at hmem
            rcases List.mem_or_eq_of_mem_set hmem with hmem | rfl
            · exact Or.inl hmem
            · exact Or.inr (by simp)
          · exact Or.inr (by simp [hmem])

/-- Claim C1: for a submesh with `V` vertices (`#parseSubmesh` calls the
bone-assignment parser with fresh empty arrays, `baseVertex = 0` and
`endVertex = V`), (1) the parser initialises 4 `(index, weight)` slots per
vertex in range to `(0, 0)`; (2) an assignment record whose vertex is in
range is stored in the first of that vertex's 4 slots whose weight is
exactly `0`, index and weight written verbatim; (3) when no slot of that
vertex has weight `0` (all 4 slots hold assignments with nonzero weights),
a Format error whose message names the vertex id is raised; (4) weights are
pass-through: every weight in a successfully produced array is either the
initial `0` or one of the authored weights, never a renormalised value. -/
theorem c1_boneassignment_packing :
    (∀ V v s : Nat, v < V → s < 4 →
      (initSkinSlots [] [] 0 V).1.get? (v * 4 + s) = some 0 ∧
      (initSkinSlots [] [] 0 V).2.get? (v * 4 + s) = some 0) ∧
    (∀ (e : Nat) (st : List Nat × List Rat) (a : VertexBoneAssignment) (s : Nat),
      a.vertexindex < e →
      findFreeSlot st.2 a.vertexindex = some s →
      (st.2.get? (a.vertexindex * 4 + s) = some 0 ∧
       (∀ t, t < s → st.2.get? (a.vertexindex * 4 + t) ≠ some 0) ∧
       assignBone 0 e st a =
         .ok (st.1.set (a.vertexindex * 4 + s) a.boneindex,
              st.2.set (a.vertexindex * 4 + s) a.weight))) ∧
    (∀ (e : Nat) (st : List Nat × List Rat) (a : VertexBoneAssignment),
      a.vertexindex < e →
      findFreeSlot st.2 a.vertexindex = none →
      ((∀ s, s < 4 → st.2.get? (a.vertexindex * 4 + s) ≠ some 0) ∧
       assignBone 0 e st a = .error ⟨.formatErr, influencesMsg a.vertexindex⟩)) ∧
    (∀ (V : Nat) (as : List VertexBoneAssignment) (st' : List Nat × List Rat),
      parseBoneassignments as [] [] 0 V = .ok st' →
      ∀ w ∈ st'.2, w = 0 ∨ w ∈ as.map (fun a => a.weight)) := by
  have hzero : ∀ (e : Nat) (a : VertexBoneAssignment), a.vertexindex < e →
      ¬ (e ≤ 0 + a.vertexindex) := by
    intro e a ha
    omega
  refine ⟨?_, ?_, ?_, ?_⟩
  · intro V v s hv hs
    have hlt : v * 4 + s < V * 4 := by omega
    constructor <;>
      simp [initSkinSlots, List.getElem?_replicate, hlt]
  · intro e st a s ha hfind
    have hok : assignBone 0 e st a =
        .ok (st.1.set (a.vertexindex * 4 + s) a.boneindex,
             st.2.set (a.vertexindex * 4 + s) a.weight) := by
      unfold assignBone
      rw [if_neg (hzero e a ha)]
      simp only [Nat.zero_add]
      rw [hfind]
    have hfirst := hfind
    rw [findFreeSlot_eq] at hfirst
    split_ifs at hfirst with h0 h1 h2 h3 <;> cases hfirst
    · refine ⟨by simpa using h0, ?_, hok⟩
      intro t ht
      exact absurd ht (Nat.not_lt_zero t)
    · refine ⟨h1, ?_, hok⟩
      intro t ht
      interval_cases t
      simpa using h0
    · refine ⟨h2, ?_, hok⟩
      intro t ht
      interval_cases t
      · simpa using h0
      · exact h1
    · refine ⟨h3, ?_, hok⟩
      intro t ht
      interval_cases t
      · simpa using h0
      · exact h1
      · exact h2
  · intro e st a ha hfind
    have herr : assignBone 0 e st a = .error ⟨.formatErr, influencesMsg a.vertexindex⟩ := by
      unfold assignBone
      rw [if_neg (hzero e a ha)]
      simp only [Nat.zero_add]
      rw [hfind]
    rw [findFreeSlot_eq] at hfind
    split_ifs at hfind with h0 h1 h2 h3
    refine ⟨?_, herr⟩
    intro s hs
    interval_cases s
    · simpa using h0
    · exact h1
    · exact h2
    · exact h3
  · intro V as st' h w hw
    unfold parseBoneassignments at h
    rcases processAssignments_mem 0 V as _ st' h w hw with hmem | hmem
    · left
      have hrep : w ∈ List.replicate ((V - 0) * 4) (0 : Rat) := by
        simpa [initSkinSlots] using hmem
      exact List.eq_of_mem_replicate hrep
    · exact Or.inr hmem

/-- Concrete instantiation of every part of `c1_boneassignment_packing`. -/
theorem c1_boneassignment_packing_witness :
    ((initSkinSlots [] [] 0 2).2.get? 7 = some 0) ∧
    (assignBone 0 1 ([0, 0, 0, 0], [1, 0, 0, 0]) ⟨0, 7, 1/2⟩ =
      .ok ([0, 7, 0, 0], [1, 1/2, 0, 0])) ∧
    (assignBone 0 1 ([2, 3, 4, 5], [1, 1, 1, 1]) ⟨0, 9, 1/2⟩ =
      .error ⟨.formatErr, "More than 4 bone influences for vertex 0"⟩) ∧
    (∀ w ∈ ([1/3, 0, 0, 0] : List Rat), w = 0 ∨
      w ∈ ([⟨0, 3, 1/3⟩] : List VertexBoneAssignment).map (fun a => a.weight)) := by
  obtain ⟨ha, hb, hc, hd⟩ := c1_boneassignment_packing
  refine ⟨?_, ?_, ?_, ?_⟩
  · have h := (ha 2 1 3 (by decide) (by decide)).2
    simpa using h
  · have h := (hb 1 ([0, 0, 0, 0], [1, 0, 0, 0]) ⟨0, 7, 1/2⟩ 1
      (by decide) (by rfl)).2.2
    rw [h]
    rfl
  · have h := (hc 1 ([2, 3, 4, 5], [1, 1, 1, 1]) ⟨0, 9, 1/2⟩
      (by decide) (by rfl)).2
    rw [h]
    rfl
  · have hrun : parseBoneassignments [⟨0, 3, 1/3⟩] [] [] 0 1 =
        .ok ([3, 0, 0, 0], [1/3, 0, 0, 0]) := by rfl
    exact hd 1 [⟨0, 3, 1/3⟩] ([3, 0, 0, 0], [1/3, 0, 0, 0]) hrun

/-! ## Geometry and submeshes
(`#parseGeometry` lines 703-721, `#parseFaces` 672-693, `#parseSubmesh`
755-847, `#parseSubmeshes` 731-745, `#parseMesh` 341-400)

Vertex coordinates are opaque to every claim and are modelled as rational
triples.  A `<vertexbuffer>` is modelled by its decoded content (the
per-channel decoding of `#parseVertexbuffer` / `#parseVertex` — `positions`
/ `normals` flags, texcoord dimensions — is referenced by no claim). -/

/-- Decoded `#attrVector3` result. -/
abbrev Vec3 := Rat × Rat × Rat

/-- One `<vertexbuffer>` block, by its decoded per-vertex channels. -/
structure VertexBuffer where
  vertices : List Vec3
  normals : List Vec3
  uvs : List (List Rat)
deriving DecidableEq, Repr

/-- A `<geometry>` / `<sharedgeometry>` element: the `vertexcount` attribute
(read by `#attrInt` with default `0`) and the `vertexbuffer` children. -/
structure GeometryNode where
  vertexcount : Option Int
  buffers : List VertexBuffer
deriving DecidableEq, Repr

/-- Accumulated geometry data returned by `#parseGeometry`. -/
structure GeomData where
  vertices : List Vec3
  normals : List Vec3
  uvs : List (List Rat)
deriving DecidableEq, Repr

/-- Message of the count-mismatch error in `#parseGeometry`; it names the
declared and the parsed number. -/
def vertexcountMsg (declared : Int) (parsed : Nat) : String :=
  s!"vertexcount {declared} differs from parsed {parsed}"

/-- `#parseGeometry`: concatenate the vertex buffers, then
`if (declared && declared !== globalVertices.length) throw E_FORMAT`.
JavaScript truthiness of the number `declared` is `declared ≠ 0`. -/
def parseGeometry (g : GeometryNode) : Except OgreMaxError GeomData :=
  let globalVertices := (g.buffers.map (fun b => b.vertices)).flatten
  let globalNormals := (g.buffers.map (fun b => b.normals)).flatten
  let globalUvs := (g.buffers.map (fun b => b.uvs)).flatten
  let declared := g.vertexcount.getD 0
  if declared ≠ 0 ∧ declared ≠ (globalVertices.length : Int) then
    .error ⟨.formatErr, vertexcountMsg declared globalVertices.length⟩
  else
    .ok ⟨globalVertices, globalNormals, globalUvs⟩

/-- One `<face>` element (`v1`, `v2`, `v3` read by `#attrInt`). -/
structure FaceNode where
  v1 : Nat
  v2 : Nat
  v3 : Nat
deriving DecidableEq, Repr

/-- Message of the face range error in `#parseFaces`. -/
def faceRangeMsg (a b c vertCount : Nat) : String :=
  s!"Face index out of range (v1:{a} v2:{b} v3:{c} >= {vertCount})"

/-- `#parseFaces`: per face, range-check the three indices against
`vertCount` and push `base + vi` (the per-face normal and uv lookups it also
returns are discarded by the only caller, `#parseSubmesh`). -/
def parseFaces (base vertCount : Nat) :
    List FaceNode → Except OgreMaxError (List Nat)
  | [] => .ok []
  | f :: fs =>
      if vertCount ≤ f.v1 ∨ vertCount ≤ f.v2 ∨ vertCount ≤ f.v3 then
        .error ⟨.rangeErr,
          faceRangeMsg (base + f.v1) (base + f.v2) (base + f.v3) vertCount⟩
      else
        match parseFaces base vertCount fs with
        | .error err => .error err
        | .ok rest => .ok ((base + f.v1) :: (base + f.v2) :: (base + f.v3) :: rest)

/-- ASCII lower-casing of one character (JavaScript `toLowerCase` on the
ASCII attribute values the loader compares). -/
def jsCharToLower (c : Char) : Char :=
  if 65 ≤ c.toNat ∧ c.toNat ≤ 90 then Char.ofNat (c.toNat + 32) else c

/-- JavaScript `String.prototype.toLowerCase` on ASCII strings. -/
def jsToLowerCase (s : String) : String :=
  ⟨s.data.map jsCharToLower⟩

/-- `#attrBool`: `(XMLNode?.getAttribute(attr) ?? `${defaultValue}`).toLowerCase() === 'true'`. -/
def attrBool (attr : Option String) (defaultValue : Bool := false) : Bool :=
  jsToLowerCase (attr.getD (if defaultValue then "true" else "false")) == "true"

@[simp] theorem attrBool_none : attrBool none = false := by decide

@[simp] theorem except_ok_bind {ε α β : Type} (a : α) (f : α → Except ε β) :
    (Except.ok a >>= f : Except ε β) = f a := rfl

@[simp] theorem except_error_bind {ε α β : Type} (e : ε) (f : α → Except ε β) :
    (Except.error e >>= f : Except ε β) = Except.error e := rfl

/-- JavaScript `string || default` (the empty string is falsy). -/
def jsOrString (attr : Option String) (defaultValue : String) : String :=
  match attr with
  | some s => if s = "" then defaultValue else s
  | none => defaultValue

@[simp] theorem jsOrString_none (d : String) : jsOrString none d = d := rfl

/-- The `BufferGeometry` assembled by `#parseSubmesh`.  `index` is present
exactly when the submesh produced a non-empty index list; it carries the
element values as stored by the chosen typed array (`Uint16Array` values are
reduced mod 2^16, `Uint32Array` mod 2^32) together with `need32`
(`true` = 32-bit `Uint32Array`). -/
structure SubmeshGeometry where
  position : List Vec3
  normal : List Vec3
  uv : List (List Rat)
  skinIndex : List Nat
  skinWeight : List Rat
  index : Option (List Nat × Bool)
  materialSlot : Nat
deriving DecidableEq, Repr

/-- The `THREE.Object3D` values returned by the mesh parsers. -/
inductive ParsedObject where
  | line (geom : SubmeshGeometry)
  | skinnedMesh (name : String) (geom : SubmeshGeometry)
  | group (name : String) (children : List ParsedObject)

/-- One `<submesh>` element, by the attributes and children
`#parseSubmesh` reads. -/
structure SubmeshNode where
  name : Option String
  usesharedvertices : Option String
  use32bitindexes : Option String
  operationtype : Option String
  geometry : Option GeometryNode
  faces : Option (List FaceNode)
  boneassignments : Option (List VertexBoneAssignment)
deriving DecidableEq, Repr

/-- `#parseSubmesh`: gather vertices (shared pool or own `<geometry>`),
parse faces into indices (`base = 0`), pack bone assignments, then choose
the index width: `need32 = use32bitindexes || indices.length > 65535`
(line 813) and store the indices in a `Uint32Array` or `Uint16Array`.
A `line_list` / `line_strip` operation type yields a `THREE.Line`,
otherwise a `THREE.SkinnedMesh` named by the `name` attribute
(`|| 'submesh'`). -/
def parseSubmesh (n : SubmeshNode) (shared : Option GeomData)
    (materialSlot : Nat) : Except OgreMaxError ParsedObject := do
  let usesShared := attrBool n.usesharedvertices
  let use32bitindexes := attrBool n.use32bitindexes
  let opType := jsOrString n.operationtype "triangle_list"
  let data ←
    if usesShared then
      match shared with
      | none =>
          Except.error ⟨.formatErr,
            "usesharedvertices is true but no shared geometry provided"⟩
      | some sh => Except.ok sh
    else
      match n.geometry with
      | some g => parseGeometry g
      | none => Except.ok ⟨[], [], []⟩
  let indices ←
    match n.faces with
    | some fs => parseFaces 0 data.vertices.length fs
    | none => Except.ok []
  let skin ←
    match n.boneassignments with
    | some as => parseBoneassignments as [] [] 0 data.vertices.length
    | none => Except.ok ([], [])
  let indexData :=
    if indices.length ≠ 0 then
      let need32 := use32bitindexes || decide (65535 < indices.length)
      some (if need32 then indices.map (fun i => i % 4294967296)
            else indices.map (fun i => i % 65536), need32)
    else none
  let geom : SubmeshGeometry :=
    { position := data.vertices, normal := data.normals, uv := data.uvs,
      skinIndex := skin.1, skinWeight := skin.2,
      index := indexData, materialSlot := materialSlot }
  if opType == "line_list" || opType == "line_strip" then
    return .line geom
  return .skinnedMesh (jsOrString n.name "submesh") geom

/-- The submesh loop of `#parseSubmeshes` with its incrementing
`materialSlot`. -/
def parseSubmeshList (shared : Option GeomData) :
    List SubmeshNode → Nat → Except OgreMaxError (List ParsedObject)
  | [], _ => .ok []
  | n :: ns, slot =>
      match parseSubmesh n shared slot with
      | .error err => .error err
      | .ok o =>
          match parseSubmeshList shared ns (slot + 1) with
          | .error err => .error err
          | .ok rest => .ok (o :: rest)

/-- `#parseSubmeshes`: error when no `<submesh>` child exists, otherwise
parse each in declaration order starting from material slot `0`. -/
def parseSubmeshes (ns : List SubmeshNode) (shared : Option GeomData) :
    Except OgreMaxError (List ParsedObject) :=
  if ns.length = 0 then
    .error ⟨.xmlErr, "No <submesh> found inside <submeshes>"⟩
  else
    parseSubmeshList shared ns 0

/-- A `<mesh>` root element, by what `#parseMesh` reads. -/
structure MeshNode where
  name : Option String
  sharedgeometry : Option GeometryNode
  submeshes : Option (List SubmeshNode)
  skeletonlink : Option String
deriving DecidableEq, Repr

/-- The shared-geometry stage of `#parseMesh`. -/
def parseSharedGeom (m : MeshNode) : Except OgreMaxError (Option GeomData) :=
  match m.sharedgeometry with
  | some g =>
      match parseGeometry g with
      | .error err => .error err
      | .ok sh => .ok (some sh)
  | none => .ok none

/-- `#parseMesh`: parse the optional shared pool, require a `<submeshes>`
block, parse the submeshes, and return the single submesh itself when there
is exactly one, else a `THREE.Group` named by the `name` attribute
(`?? 'mesh'`, nullish — the empty string is kept) whose children are the
submeshes in declaration order.  A `<skeletonlink>` only triggers an
asynchronous nested load that later mutates the submesh objects; it does not
change the synchronously returned shape. -/
def parseMesh (m : MeshNode) : Except OgreMaxError ParsedObject := do
  let sharedGeom ← parseSharedGeom m
  match m.submeshes with
  | none => Except.error ⟨.xmlErr, "<mesh> is missing a <submeshes> block"⟩
  | some subNodes => do
      let submeshes ← parseSubmeshes subNodes sharedGeom
      match submeshes with
      | [single] => return single
      | l => return .group (m.name.getD "mesh") l

/-- Claim C5 (counterexample): a `<geometry>` block explicitly declaring
`vertexcount="0"` whose vertex buffers parse to 1 vertex succeeds without
any error, although the parsed number differs from the declared one —
contrary to the claim that any mismatch between declared and parsed counts
raises a Format error (the source guard `declared && declared !== length`
skips the check entirely for a declared count of 0). -/
theorem c5_counterexample :
    (⟨some 0, [⟨[(0, 0, 0)], [], []⟩]⟩ : GeometryNode).vertexcount = some 0 ∧
    parseGeometry ⟨some 0, [⟨[(0, 0, 0)], [], []⟩]⟩ = .ok ⟨[(0, 0, 0)], [], []⟩ ∧
    ([((0 : Rat), (0 : Rat), (0 : Rat))] : List Vec3).length ≠ 0 :=
  ⟨rfl, rfl, by decide⟩

/-- Claim C5 (amended): when the declared `vertexcount` is nonzero and
differs from the number of vertices parsed from the `vertexbuffer`
sub-blocks, `#parseGeometry` fails with a Format error naming both the
declared and the parsed number; otherwise (equal counts, or a declared
count of `0`, or an absent attribute, which reads as `0`) it succeeds with
the concatenated buffers. -/
theorem c5_vertexcount_mismatch (g : GeometryNode) :
    (g.vertexcount.getD 0 ≠ 0 ∧
     g.vertexcount.getD 0 ≠ ((g.buffers.map (fun b => b.vertices)).flatten.length : Int) →
      parseGeometry g = .error ⟨.formatErr,
        vertexcountMsg (g.vertexcount.getD 0)
          (g.buffers.map (fun b => b.vertices)).flatten.length⟩) ∧
    (¬ (g.vertexcount.getD 0 ≠ 0 ∧
        g.vertexcount.getD 0 ≠ ((g.buffers.map (fun b => b.vertices)).flatten.length : Int)) →
      parseGeometry g = .ok ⟨(g.buffers.map (fun b => b.vertices)).flatten,
        (g.buffers.map (fun b => b.normals)).flatten,
        (g.buffers.map (fun b => b.uvs)).flatten⟩) := by
  constructor
  · intro h
    simp only [parseGeometry]
    rw [if_pos h]
  · intro h
    simp only [parseGeometry]
    rw [if_neg h]

/-- Concrete instantiation of both parts of `c5_vertexcount_mismatch`. -/
theorem c5_vertexcount_mismatch_witness :
    parseGeometry ⟨some 5, [⟨[(0, 0, 0)], [], []⟩]⟩ =
      .error ⟨.formatErr, "vertexcount 5 differs from parsed 1"⟩ ∧
    parseGeometry ⟨some 1, [⟨[(0, 0, 0)], [], []⟩]⟩ = .ok ⟨[(0, 0, 0)], [], []⟩ := by
  constructor
  · have h := (c5_vertexcount_mismatch ⟨some 5, [⟨[(0, 0, 0)], [], []⟩]⟩).1
      (by constructor <;> decide)
    rw [h]
    rfl
  · have h := (c5_vertexcount_mismatch ⟨some 1, [⟨[(0, 0, 0)], [], []⟩]⟩).2
      (by simp)
    rw [h]
    rfl

/-- Claim C2 (code-bug evidence): a submesh whose geometry holds 65 537
vertices — a combined vertex count exceeding 65 535 — with the
`use32bitindexes` flag unset and a single face referencing vertex 65 536 is
given a 16-bit index buffer (`need32 = use32bitindexes || indices.length > 65535`
is `false` because only the *index list length*, here 3, is compared), and
the stored `Uint16Array` truncates index 65 536 to 0.  The claim (and the
file header, "Mesh > 65535 vertices auto-switches to Uint32Array indices")
require a 32-bit buffer here. -/
theorem parseGeometry_replicate (n : Nat) :
    parseGeometry ⟨none, [⟨List.replicate n ((0 : Rat), (0 : Rat), (0 : Rat)), [], []⟩]⟩ =
      .ok ⟨List.replicate n (0, 0, 0), [], []⟩ := by
  simp [parseGeometry]

theorem parseFaces_single (n : Nat) (f : FaceNode)
    (h1 : f.v1 < n) (h2 : f.v2 < n) (h3 : f.v3 < n) :
    parseFaces 0 n [f] = .ok [f.v1, f.v2, f.v3] := by
  have hc : ¬ (n ≤ f.v1 ∨ n ≤ f.v2 ∨ n ≤ f.v3) := by omega
  simp [parseFaces, hc]

/-- Evaluation of `#parseSubmesh` for a submesh with its own geometry and
faces, no bone assignments, and every attribute absent. -/
theorem parseSubmesh_plain (g : GeometryNode) (fs : List FaceNode)
    (data : GeomData) (idx : List Nat)
    (hpg : parseGeometry g = .ok data)
    (hpf : parseFaces 0 data.vertices.length fs = .ok idx)
    (hne : idx ≠ []) :
    parseSubmesh ⟨none, none, none, none, some g, some fs, none⟩ none 0 =
      .ok (.skinnedMesh "submesh"
        { position := data.vertices, normal := data.normals, uv := data.uvs,
          skinIndex := [], skinWeight := [],
          index := some ((if 65535 < idx.length then idx.map (fun i => i % 4294967296)
                          else idx.map (fun i => i % 65536)),
                         decide (65535 < idx.length)),
          materialSlot := 0 }) := by
  simp [parseSubmesh, hpg, hpf, hne]

theorem c2_index_width_truncation :
    ∃ geom : SubmeshGeometry,
      parseSubmesh
        ⟨none, none, none, none,
         some ⟨none, [⟨List.replicate 65537 (0, 0, 0), [], []⟩]⟩,
         some [⟨0, 1, 65536⟩], none⟩ none 0 = .ok (.skinnedMesh "submesh" geom) ∧
      geom.position.length = 65537 ∧
      geom.index = some ([0, 1, 0], false) := by
  have hpf : parseFaces 0
      (List.replicate 65537 ((0 : Rat), (0 : Rat), (0 : Rat))).length [⟨0, 1, 65536⟩] =
      .ok [0, 1, 65536] := by
    rw [List.length_replicate]
    exact parseFaces_single 65537 ⟨0, 1, 65536⟩ (by norm_num) (by norm_num) (by norm_num)
  have h := parseSubmesh_plain ⟨none, [⟨List.replicate 65537 (0, 0, 0), [], []⟩]⟩
    [⟨0, 1, 65536⟩] ⟨List.replicate 65537 (0, 0, 0), [], []⟩ [0, 1, 65536]
    (parseGeometry_replicate 65537) hpf (by simp)
  refine ⟨_, h, ?_, ?_⟩
  · rw [List.length_replicate]
  · norm_num

/-- Claim C10: the result type of `#parseMesh` depends on the number of
submeshes: with exactly one submesh the submesh object itself is returned;
with two or more, a `THREE.Group` named after the mesh's `name` attribute
(`'mesh'` when absent) whose children are the submeshes in declaration
order. -/
theorem c10_parseMesh_shape :
    (∀ (m : MeshNode) (subNodes : List SubmeshNode) (sh : Option GeomData)
        (s : ParsedObject),
      m.submeshes = some subNodes →
      parseSharedGeom m = .ok sh →
      parseSubmeshes subNodes sh = .ok [s] →
      parseMesh m = .ok s) ∧
    (∀ (m : MeshNode) (subNodes : List SubmeshNode) (sh : Option GeomData)
        (s1 s2 : ParsedObject) (rest : List ParsedObject),
      m.submeshes = some subNodes →
      parseSharedGeom m = .ok sh →
      parseSubmeshes subNodes sh = .ok (s1 :: s2 :: rest) →
      parseMesh m = .ok (.group (m.name.getD "mesh") (s1 :: s2 :: rest))) := by
  constructor
  · intro m subNodes sh s hsub hsh hsm
    simp [parseMesh, hsub, hsh, hsm]
    rfl
  · intro m subNodes sh s1 s2 rest hsub hsh hsm
    simp [parseMesh, hsub, hsh, hsm]
    rfl

/-- Concrete instantiation of both parts of `c10_parseMesh_shape`:
a one-submesh mesh returns the submesh itself, a two-submesh mesh returns
a group named `'mesh'` with both children in order. -/
theorem c10_parseMesh_shape_witness :
    parseMesh ⟨none, none, some [⟨none, none, none, none, none, none, none⟩], none⟩ =
      .ok (.skinnedMesh "submesh" ⟨[], [], [], [], [], none, 0⟩) ∧
    parseMesh ⟨none, none,
        some [⟨none, none, none, none, none, none, none⟩,
              ⟨some "b", none, none, none, none, none, none⟩], none⟩ =
      .ok (.group "mesh"
        [.skinnedMesh "submesh" ⟨[], [], [], [], [], none, 0⟩,
         .skinnedMesh "b" ⟨[], [], [], [], [], none, 1⟩]) := by
  constructor
  · exact c10_parseMesh_shape.1 _ [⟨none, none, none, none, none, none, none⟩]
      none _ rfl rfl (by rfl)
  · exact c10_parseMesh_shape.2 _ _ none _ _ [] rfl rfl (by rfl)

/-! ## Skeleton bones (`#parseBone` lines 1172-1180, `#parseBones` 1188-1198,
`#parseBoneHierarchy` 1207-1220)

A bone's local transform (`applyMatrix4(#attrMatrix(node))`) is referenced
by no claim and is omitted from the `Bone` record.  The JavaScript map
`bones` is an insertion-ordered string-keyed object; `Object.values`
enumerates it in insertion order, and `Array.prototype.sort` (ES2019+) is a
stable sort by the comparator `a.userData.index - b.userData.index`. -/

/-- One `<bone>` element: `name` attribute and `id` read by `#attrInt`. -/
structure BoneNode where
  name : Option String
  id : Int
deriving DecidableEq, Repr

/-- A parsed `THREE.Bone`: `bone.name = getAttribute('name') || ''` and
`bone.userData.index = #attrInt(XMLNode, 'id')`. -/
structure Bone where
  name : String
  index : Int
deriving DecidableEq, Repr

/-- `#parseBone`. -/
def parseBone (n : BoneNode) : Bone :=
  ⟨jsOrString n.name "", n.id⟩

/-- The key under which `#parseBones` stores a bone (`bones[bone.name]`). -/
def boneKey (n : BoneNode) : String :=
  jsOrString n.name ""

/-- JavaScript object property assignment `m[k] = v` on an
insertion-ordered map: an existing key is updated in place, a new key is
appended. -/
def jsObjSet {β : Type} (m : List (String × β)) (k : String) (v : β) :
    List (String × β) :=
  if m.any (fun p => p.1 == k) then
    m.map (fun p => if p.1 == k then (k, v) else p)
  else
    m ++ [(k, v)]

/-- JavaScript object property read `m[attr]`; a `null` attribute coerces
to the property key `"null"`. -/
def jsObjGet {β : Type} (m : List (String × β)) (k : Option String) : Option β :=
  (m.find? (fun p => p.1 == k.getD "null")).map (fun p => p.2)

/-- `#parseBones`: fold the `<bone>` children into the name-keyed map. -/
def parseBones (ns : List BoneNode) : List (String × Bone) :=
  ns.foldl (fun m n => jsObjSet m (parseBone n).name (parseBone n)) []

/-- One `<boneparent>` element (`bone` / `parent` attributes). -/
structure BoneParentNode where
  bone : Option String
  parent : Option String
deriving DecidableEq, Repr

/-- The link loop of `#parseBoneHierarchy`:
`parent && bone && parent.add(bone)`, a missing lookup silently skipped.
`THREE.Object3D.add` re-parents the child, so the map from child bone name
to parent bone name records the last link that mentions the child. -/
def assembleHierarchy (links : List BoneParentNode)
    (bones : List (String × Bone)) : List (String × String) :=
  links.foldl
    (fun acc l =>
      match jsObjGet bones l.parent, jsObjGet bones l.bone with
      | some parent, some bone => jsObjSet acc bone.name parent.name
      | _, _ => acc)
    []

/-- The comparator `(a, b) => a.userData.index - b.userData.index`. -/
def boneLE (a b : Bone) : Prop := a.index ≤ b.index

/-- Strict version of `boneLE`, used to express uniqueness of the sorted
order under distinct ids. -/
def boneLT (a b : Bone) : Prop := a.index < b.index

instance : DecidableRel boneLE := fun a b => Int.decLe a.index b.index

instance : IsTotal Bone boneLE := ⟨fun a b => Int.le_total a.index b.index⟩

instance : IsTrans Bone boneLE := ⟨fun _ _ _ => Int.le_trans⟩

instance : IsAntisymm Bone boneLT :=
  ⟨fun _ _ h1 h2 => absurd (lt_trans h1 h2) (lt_irrefl _)⟩

/-- `Object.values(bones)` in insertion order. -/
def bonesValues (m : List (String × Bone)) : List Bone :=
  m.map (fun p => p.2)

/-- `Object.values(bones).sort((a, b) => a.userData.index - b.userData.index)`:
a stable sort by declared id. -/
def sortBones (bs : List Bone) : List Bone :=
  List.insertionSort boneLE bs

/-- `#parseBoneHierarchy`: attach the parent links, then reorder the map's
values by declared id.  The result is the reordered bone array together
with the child-name → parent-name attachment map. -/
def parseBoneHierarchy (links : List BoneParentNode)
    (bones : List (String × Bone)) : List Bone × List (String × String) :=
  (sortBones (bonesValues bones), assembleHierarchy links bones)

theorem jsObjSet_append {β : Type} (m : List (String × β)) (k : String) (v : β)
    (h : ∀ p ∈ m, p.1 ≠ k) : jsObjSet m k v = m ++ [(k, v)] := by
  unfold jsObjSet
  rw [if_neg]
  simp only [List.any_eq_true, beq_iff_eq, not_exists]
  intro p hp
  exact h p hp.1 hp.2

/-- With pairwise-distinct bone names, `#parseBones` produces the
association list of the declarations in order. -/
theorem parseBones_nodup :
    ∀ (ns : List BoneNode) (m : List (String × Bone)),
      (∀ p ∈ m, ∀ n ∈ ns, p.1 ≠ boneKey n) →
      (ns.map boneKey).Nodup →
      ns.foldl (fun m n => jsObjSet m (parseBone n).name (parseBone n)) m =
        m ++ ns.map (fun n => (boneKey n, parseBone n)) := by
  intro ns
  induction ns with
  | nil => intro m _ _; simp
  | cons n ns ih =>
      intro m hdisj hnodup
      have hkey : (parseBone n).name = boneKey n := rfl
      have hstep : jsObjSet m (parseBone n).name (parseBone n) =
          m ++ [(boneKey n, parseBone n)] := by
        rw [hkey]
        exact jsObjSet_append m (boneKey n) (parseBone n)
          (fun p hp => hdisj p hp n (List.mem_cons_self n ns))
      simp only [List.foldl_cons, hstep]
      rw [ih (m ++ [(boneKey n, parseBone n)]) ?_ ?_]
      · simp
      · intro p hp n' hn'
        rcases List.mem_append.mp hp with hp | hp
        · exact hdisj p hp n' (List.mem_cons_of_mem n hn')
        · have : p = (boneKey n, parseBone n) := by simpa using hp
          subst this
          simp only [List.map_cons, List.nodup_cons] at hnodup
          intro hk
          simp only at hk
          exact hnodup.1 (by rw [hk]; exact List.mem_map_of_mem boneKey hn')
      · simp only [List.map_cons, List.nodup_cons] at hnodup
        exact hnodup.2

/-- A `boneLE`-sorted list whose ids are pairwise distinct is
`boneLT`-sorted. -/
theorem sorted_lt_of_nodup (l : List Bone) (h : l.Sorted boneLE)
    (hn : (l.map (fun b => b.index)).Nodup) : l.Sorted boneLT := by
  have hne : l.Pairwise (fun a b => a.index ≠ b.index) := List.pairwise_map.mp hn
  exact (h.and hne).imp (fun hab => lt_of_le_of_ne hab.1 hab.2)

/-- Claim C3: the bone array produced by `#parseBoneHierarchy` is (1)
sorted by declared id and (2) a permutation of the map's bones; (3) with
pairwise-distinct names and ids it is therefore independent of the order
in which the bones were declared; (4) concretely, bones declared in order
`(id=2,"C"), (id=0,"A"), (id=1,"B")` with parent links `C -> A` and
`B -> A` yield the array `[A, B, C]` with both `B` and `C` attached as
children of `A`. -/
theorem c3_bone_order :
    (∀ (links : List BoneParentNode) (bones : List (String × Bone)),
      (parseBoneHierarchy links bones).1.Sorted boneLE) ∧
    (∀ (links : List BoneParentNode) (bones : List (String × Bone)),
      (parseBoneHierarchy links bones).1.Perm (bonesValues bones)) ∧
    (∀ (decls1 decls2 : List BoneNode) (links1 links2 : List BoneParentNode),
      decls1.Perm decls2 →
      (decls1.map boneKey).Nodup →
      (decls1.map (fun n => n.id)).Nodup →
      (parseBoneHierarchy links1 (parseBones decls1)).1 =
        (parseBoneHierarchy links2 (parseBones decls2)).1) ∧
    (parseBoneHierarchy
        [⟨some "C", some "A"⟩, ⟨some "B", some "A"⟩]
        (parseBones [⟨some "C", 2⟩, ⟨some "A", 0⟩, ⟨some "B", 1⟩]) =
      ([⟨"A", 0⟩, ⟨"B", 1⟩, ⟨"C", 2⟩], [("C", "A"), ("B", "A")])) := by
  have hsorted : ∀ (links : List BoneParentNode) (bones : List (String × Bone)),
      (parseBoneHierarchy links bones).1.Sorted boneLE :=
    fun _ bones => List.sorted_insertionSort boneLE (bonesValues bones)
  have hperm : ∀ (links : List BoneParentNode) (bones : List (String × Bone)),
      (parseBoneHierarchy links bones).1.Perm (bonesValues bones) :=
    fun _ bones => List.perm_insertionSort boneLE (bonesValues bones)
  refine ⟨hsorted, hperm, ?_, by decide⟩
  intro decls1 decls2 links1 links2 hp hnames hids
  have hvals : ∀ (decls : List BoneNode), (decls.map boneKey).Nodup →
      bonesValues (parseBones decls) = decls.map parseBone := by
    intro decls hnd
    unfold parseBones
    rw [parseBones_nodup decls [] (by simp) hnd]
    simp [bonesValues]
  have hnames2 : (decls2.map boneKey).Nodup := ((hp.map boneKey).nodup_iff).mp hnames
  have hv1 : bonesValues (parseBones decls1) = decls1.map parseBone := hvals decls1 hnames
  have hv2 : bonesValues (parseBones decls2) = decls2.map parseBone := hvals decls2 hnames2
  have hvperm : (bonesValues (parseBones decls1)).Perm (bonesValues (parseBones decls2)) := by
    rw [hv1, hv2]
    exact hp.map parseBone
  have houtp : (parseBoneHierarchy links1 (parseBones decls1)).1.Perm
      (parseBoneHierarchy links2 (parseBones decls2)).1 :=
    ((hperm links1 _).trans hvperm).trans (hperm links2 _).symm
  have hidx1 : ((parseBoneHierarchy links1 (parseBones decls1)).1.map
      (fun b => b.index)).Nodup := by
    have : ((decls1.map parseBone).map (fun b => b.index)) = decls1.map (fun n => n.id) := by
      simp [parseBone]
    refine (((hperm links1 _).map (fun b => b.index)).nodup_iff).mpr ?_
    rw [hv1, this]
    exact hids
  have hidx2 : ((parseBoneHierarchy links2 (parseBones decls2)).1.map
      (fun b => b.index)).Nodup :=
    ((houtp.map (fun b => b.index)).nodup_iff).mp hidx1
  exact List.eq_of_perm_of_sorted houtp
    (sorted_lt_of_nodup _ (hsorted links1 _) hidx1)
    (sorted_lt_of_nodup _ (hsorted links2 _) hidx2)

/-- Concrete instantiation of `c3_bone_order`: two declaration orders of
the same three bones yield the same id-sorted array. -/
theorem c3_bone_order_witness :
    (parseBoneHierarchy [] (parseBones [⟨some "C", 2⟩, ⟨some "A", 0⟩, ⟨some "B", 1⟩])).1 =
      (parseBoneHierarchy [] (parseBones [⟨some "A", 0⟩, ⟨some "B", 1⟩, ⟨some "C", 2⟩])).1 :=
  c3_bone_order.2.2.1
    [⟨some "C", 2⟩, ⟨some "A", 0⟩, ⟨some "B", 1⟩]
    [⟨some "A", 0⟩, ⟨some "B", 1⟩, ⟨some "C", 2⟩]
    [] [] (by decide) (by decide) (by decide)

/-! ## JavaScript numbers

`parseFloat` can yield `NaN` or signed infinities, and the animation and
rotation parsers branch on those, so attribute values they read are
modelled by an IEEE-style sum type over an idealised finite scalar. -/

/-- A JavaScript number over an idealised scalar type `α`: `NaN`, a signed
infinity (`inf true` is `+Infinity`), or a finite value. -/
inductive JSNum (α : Type) where
  | nan : JSNum α
  | inf : Bool → JSNum α
  | fin : α → JSNum α
deriving DecidableEq, Repr

/-- `Number.isNaN`. -/
def JSNum.isNaN {α : Type} : JSNum α → Bool
  | .nan => true
  | _ => false

/-- `isFinite` (after the numeric conversion `parseFloat` already did). -/
def JSNum.isFinite {α : Type} : JSNum α → Bool
  | .fin _ => true
  | _ => false

/-- JavaScript falsiness `!x` of a number: `0`, `-0` and `NaN` are falsy. -/
def JSNum.falsy {α : Type} [Zero α] [DecidableEq α] : JSNum α → Bool
  | .nan => true
  | .inf _ => false
  | .fin x => x == 0

/-! ## Skeleton animations (`#parseAnimation` lines 1127-1146,
`#parseTracks` 1321-1330, `#parseTrack` 1280-1312, `#parseKeyframes`
1239-1271)

A `<keyframe>` carries a `time` attribute and a local transform
(`#attrMatrix`) that `#parseKeyframes` decomposes and composes onto the
bone's rest pose; no claim references the numeric keyframe values, so the
keyframe is modelled by its time.  All three channels (position, rotation,
scale) receive one entry per `<keyframe>` child. -/

structure KeyframeNode where
  time : JSNum Rat
deriving DecidableEq, Repr

/-- One `<track>` element (`bone` attribute and `<keyframes>` child). -/
structure TrackNode where
  bone : Option String
  keyframes : Option (List KeyframeNode)
deriving DecidableEq, Repr

/-- One `<animation>` element (`name`, `length` attributes, `<tracks>`). -/
structure AnimationNode where
  name : Option String
  length : JSNum Rat
  tracks : Option (List TrackNode)
deriving DecidableEq, Repr

/-- One produced `THREE.KeyframeTrack` (target path and key times). -/
structure Track where
  target : String
  times : List (JSNum Rat)
deriving DecidableEq, Repr

/-- A produced `THREE.AnimationClip`. -/
structure Clip where
  name : String
  duration : JSNum Rat
  tracks : List Track
deriving DecidableEq, Repr

/-- Rendering of a possibly-`null` attribute inside a JS template string. -/
def showAttr (o : Option String) : String := o.getD "null"

/-- `#parseTrack`: look the bone up (Range error when unknown), require
`<keyframes>` (XML error), gather the per-channel times, fail with a Format
error when every channel has zero keyframes, else emit the non-empty
channel tracks. -/
def parseTrack (n : TrackNode) (bones : List (String × Bone)) :
    Except OgreMaxError (List Track) :=
  let boneName := showAttr n.bone
  match jsObjGet bones n.bone with
  | none =>
      .error ⟨.rangeErr, "Track references unknown bone \"" ++ boneName ++ "\""⟩
  | some _ =>
      match n.keyframes with
      | none =>
          .error ⟨.xmlErr, "Track for bone \"" ++ boneName ++ "\" has no <keyframes>"⟩
      | some kfs =>
          let times := kfs.map (fun k => k.time)
          if times.length = 0 then
            .error ⟨.formatErr,
              "Track for bone \"" ++ boneName ++ "\" contains zero keyframes"⟩
          else
            .ok [⟨".bones[" ++ boneName ++ "].position", times⟩,
                 ⟨".bones[" ++ boneName ++ "].quaternion", times⟩,
                 ⟨".bones[" ++ boneName ++ "].scale", times⟩]

/-- `#parseTracks`: concatenate the per-track results in document order. -/
def parseTracks (ns : List TrackNode) (bones : List (String × Bone)) :
    Except OgreMaxError (List Track) :=
  match ns with
  | [] => .ok []
  | n :: rest =>
      match parseTrack n bones with
      | .error err => .error err
      | .ok ts =>
          match parseTracks rest bones with
          | .error err => .error err
          | .ok more => .ok (ts ++ more)

/-- The length guard of `#parseAnimation`:
`if (!length || !isFinite(length)) throw E_FORMAT`. -/
def invalidLength (x : JSNum Rat) : Bool := x.falsy || !x.isFinite

/-- Message of the invalid-length error (the JS template also interpolates
the numeric value; only the name is modelled). -/
def invalidLengthMsg (name : String) : String :=
  "Animation \"" ++ name ++ "\" has invalid length"

/-- The remainder of `#parseAnimation` after the length guard: require
`<tracks>`, parse them (an empty track list only logs a warning) and build
the clip. -/
def parseAnimationTracks (n : AnimationNode) (bones : List (String × Bone)) :
    Except OgreMaxError Clip :=
  let name := jsOrString n.name "default"
  match n.tracks with
  | none => .error ⟨.xmlErr, "Animation \"" ++ name ++ "\" missing <tracks>"⟩
  | some ts =>
      match parseTracks ts bones with
      | .error err => .error err
      | .ok tracks => .ok ⟨name, n.length, tracks⟩

/-- `#parseAnimation`: `name` attribute (`|| 'default'`), `length` read by
`#attrFloat` with default `0`, guarded by
`if (!length || !isFinite(length)) throw E_FORMAT`, then the tracks. -/
def parseAnimation (n : AnimationNode) (bones : List (String × Bone)) :
    Except OgreMaxError Clip :=
  if invalidLength n.length then
    .error ⟨.formatErr, invalidLengthMsg (jsOrString n.name "default")⟩
  else
    parseAnimationTracks n bones

/-- Claim C6 (counterexample): an animation declaring the duration `-2` —
finite but not positive — parses successfully (here with an empty track
list), although the claim requires a Format error for every duration that
is not a finite positive number.  The source guard
`!length || !isFinite(length)` only rejects `0`, `NaN` and infinities. -/
theorem c6_counterexample :
    parseAnimation ⟨some "walk", .fin (-2), some []⟩ [] =
      .ok ⟨"walk", .fin (-2), []⟩ ∧
    invalidLength (.fin (-2)) = false :=
  ⟨rfl, rfl⟩

/-- Claim C6 (amended): a declared duration that is zero, `NaN` or infinite
makes `#parseAnimation` fail with the invalid-length Format error; any
finite nonzero duration — positive or negative — passes the guard and
parsing proceeds with the tracks (so a finite positive duration never
triggers this error). -/
theorem c6_animation_length (n : AnimationNode) (bones : List (String × Bone)) :
    (invalidLength n.length = true →
      parseAnimation n bones =
        .error ⟨.formatErr, invalidLengthMsg (jsOrString n.name "default")⟩) ∧
    (invalidLength n.length = false →
      parseAnimation n bones = parseAnimationTracks n bones) ∧
    (invalidLength n.length = true ↔
      (n.length = .fin 0 ∨ n.length.isNaN = true ∨ n.length.isFinite = false)) := by
  refine ⟨?_, ?_, ?_⟩
  · intro h
    simp [parseAnimation, h]
  · intro h
    simp [parseAnimation, h]
  · cases h : n.length with
    | nan => simp [invalidLength, JSNum.falsy, JSNum.isNaN]
    | inf s => simp [invalidLength, JSNum.falsy, JSNum.isNaN, JSNum.isFinite]
    | fin x =>
        by_cases hx : x = 0 <;>
          simp [invalidLength, JSNum.falsy, JSNum.isNaN, JSNum.isFinite, hx]

/-- Concrete instantiation of `c6_animation_length`: duration `0` raises
the Format error, duration `-2` proceeds to the tracks. -/
theorem c6_animation_length_witness :
    parseAnimation ⟨some "walk", .fin 0, some []⟩ [] =
      .error ⟨.formatErr, invalidLengthMsg "walk"⟩ ∧
    parseAnimation ⟨some "walk", .fin (-2), some []⟩ [] =
      parseAnimationTracks ⟨some "walk", .fin (-2), some []⟩ [] := by
  constructor
  · have h := (c6_animation_length ⟨some "walk", .fin 0, some []⟩ []).1 (by decide)
    rw [h]
    rfl
  · exact (c6_animation_length ⟨some "walk", .fin (-2), some []⟩ []).2.1 (by decide)

/-! ## The busy guard (`load` lines 123-128, `fail` 131-142,
`#internalManager.onLoad` 169-179)

Per-instance state machine: `load` throws
`OgreMaxError('E_RUNTIME', 'Loader already in progress')` when `#busy` is
set, otherwise sets it; `fail` clears it before reporting the error; the
internal manager's `onLoad` clears it before `#finalize` (and a throwing
`#finalize` lands in `fail`, which keeps it cleared).  Events of one
instance are serialized callback turns. -/

structure LoaderState where
  busy : Bool
deriving DecidableEq, Repr

/-- Events observable by one loader instance while a load is in flight. -/
inductive LoadEvent where
  | callLoad
  | fileProgress
  | settleOk
  | settleErr
deriving DecidableEq, Repr

/-- Outcome of a `load(url, ...)` call. -/
inductive LoadOutcome where
  | started
  | rejectedBusy (err : OgreMaxError)
deriving DecidableEq, Repr

/-- The entry guard of `load`. -/
def loadCall (st : LoaderState) : LoadOutcome × LoaderState :=
  if st.busy then
    (.rejectedBusy ⟨.runtimeErr, "Loader already in progress"⟩, st)
  else
    (.started, ⟨true⟩)

/-- `true` exactly for the two events that settle the in-flight load. -/
def isSettle : LoadEvent → Bool
  | .settleOk => true
  | .settleErr => true
  | _ => false

/-- State transition of one instance per event. -/
def stepEvent (st : LoaderState) : LoadEvent → LoaderState
  | .callLoad => (loadCall st).2
  | .fileProgress => st
  | .settleOk => ⟨false⟩
  | .settleErr => ⟨false⟩

/-- Claim C9: (1) a `load` call on a busy instance is rejected with the
`E_RUNTIME` busy-guard error and leaves the instance busy; (2) along any
event sequence that contains no settling event (completion or failure) the
instance stays busy, so every `load` call in it is rejected; (3) each
settling event clears the busy flag, and (4) an idle instance accepts
`load` — together: a new load is accepted exactly once the in-progress
load completes or fails. -/
theorem c9_busy_guard :
    (∀ st : LoaderState, st.busy = true →
      loadCall st = (.rejectedBusy ⟨.runtimeErr, "Loader already in progress"⟩, st)) ∧
    (∀ evs : List LoadEvent, (∀ e ∈ evs, isSettle e = false) →
      ∀ st : LoaderState, st.busy = true → (evs.foldl stepEvent st).busy = true) ∧
    (∀ e : LoadEvent, isSettle e = true →
      ∀ st : LoaderState, (stepEvent st e).busy = false) ∧
    loadCall ⟨false⟩ = (.started, ⟨true⟩) := by
  refine ⟨?_, ?_, ?_, rfl⟩
  · intro st h
    simp [loadCall, h]
  · intro evs
    induction evs with
    | nil => intro _ st h; simpa using h
    | cons e evs ih =>
        intro hns st h
        have he : isSettle e = false := hns e (List.mem_cons_self e evs)
        have hstep : (stepEvent st e).busy = true := by
          cases e with
          | callLoad => simp [stepEvent, loadCall, h]
          | fileProgress => simpa [stepEvent] using h
          | settleOk => cases he
          | settleErr => cases he
        simpa using ih (fun x hx => hns x (List.mem_cons_of_mem e hx)) _ hstep
  · intro e he st
    cases e with
    | callLoad => cases he
    | fileProgress => cases he
    | settleOk => rfl
    | settleErr => rfl

/-- Concrete instantiation of `c9_busy_guard`: on a busy instance a call
is rejected; after progress events it is still rejected; after a settle it
is accepted. -/
theorem c9_busy_guard_witness :
    loadCall ⟨true⟩ =
      (.rejectedBusy ⟨.runtimeErr, "Loader already in progress"⟩, ⟨true⟩) ∧
    ([LoadEvent.fileProgress, LoadEvent.callLoad].foldl stepEvent ⟨true⟩).busy = true ∧
    (stepEvent ⟨true⟩ .settleOk).busy = false := by
  refine ⟨c9_busy_guard.1 ⟨true⟩ rfl, ?_, c9_busy_guard.2.2.1 .settleOk rfl ⟨true⟩⟩
  exact c9_busy_guard.2.1 [LoadEvent.fileProgress, LoadEvent.callLoad]
    (by decide) ⟨true⟩ rfl

/-! ## The material grammar parser (`DotMaterialLoader.parse`, lines
1701-1928)

The parser is line-based: `text.split(/\r?\n/)` with cursors
`next()` / `peek()` trimming on read.  It is embedded over the split line
list.  String helpers are re-implemented over `List Char` so that they are
kernel-computable. -/

/-- JavaScript `String.prototype.trim` (whitespace at both ends). -/
def jsTrim (s : String) : String :=
  ⟨((s.data.dropWhile Char.isWhitespace).reverse.dropWhile Char.isWhitespace).reverse⟩

/-- Splitting of a list of characters on whitespace runs, accumulating the
current word reversed. -/
def chopWordsAux : List Char → List Char → List String
  | [], acc => if acc.isEmpty then [] else [⟨acc.reverse⟩]
  | c :: rest, acc =>
      if c.isWhitespace then
        if acc.isEmpty then chopWordsAux rest []
        else ⟨acc.reverse⟩ :: chopWordsAux rest []
      else chopWordsAux rest (c :: acc)

/-- Splitting of one list of characters on whitespace runs. -/
def chopWords (cs : List Char) : List String :=
  chopWordsAux cs []

/-- JavaScript `line.split(/\s+/)` on a trimmed line. -/
def jsWords (s : String) : List String :=
  chopWords s.data

/-- JavaScript `String.prototype.startsWith`. -/
def jsStartsWith (s pre : String) : Bool :=
  pre.data.isPrefixOf s.data

/-- Decimal numeral digits to a natural number (`none` when empty or
non-digit). -/
def parseDigits (cs : List Char) : Option Nat :=
  if cs.isEmpty then none
  else
    cs.foldl
      (fun acc c =>
        match acc with
        | none => none
        | some n => if c.isDigit then some (n * 10 + (c.toNat - 48)) else none)
      (some 0)

/-- Splitting of a character list at the first `'.'`. -/
def splitDot : List Char → List Char × Option (List Char)
  | [] => ([], none)
  | c :: rest =>
      if c = '.' then ([], some rest)
      else
        let p := splitDot rest
        (c :: p.1, p.2)

/-- Plain signed decimal numerals (`-12`, `0.25`, `.5`, `3.`); this covers
the numeric literals of the material grammar (`parseFloat`'s exponent and
`Infinity` spellings are not used by any claim). -/
def parseDecimal (s : String) : Option Rat :=
  let (sgn, cs) :=
    match s.data with
    | '-' :: rest => (true, rest)
    | '+' :: rest => (false, rest)
    | cs => (false, cs)
  let (ip, fp) := splitDot cs
  let intVal : Option Rat :=
    match parseDigits ip with
    | some n => some (n : Rat)
    | none => if ip.isEmpty then some 0 else none
  let fracVal : Option Rat :=
    match fp with
    | none => some 0
    | some fcs =>
        match parseDigits fcs with
        | some n => some ((n : Rat) / (10 : Rat) ^ fcs.length)
        | none => if fcs.isEmpty then some 0 else none
  match intVal, fracVal with
  | some i, some f =>
      if ip.isEmpty ∧ (fp.getD []).isEmpty then none
      else some (if sgn then -(i + f) else i + f)
  | _, _ => none

/-- JavaScript unary plus on a token that may be absent
(`+undefined = NaN`, non-numeric text gives `NaN`). -/
def jsPlus (s : Option String) : JSNum Rat :=
  match s with
  | none => .nan
  | some s =>
      match parseDecimal s with
      | some q => .fin q
      | none => .nan

/-- JavaScript `x || d` on a number (`0`, `-0`, `NaN` fall back). -/
def jsOrNum (x : JSNum Rat) (d : Rat) : JSNum Rat :=
  if x.falsy then .fin d else x

/-- A colour as three JS numbers
(`target.set(+tok[1], +tok[2], +tok[3])`). -/
abbrev JSColor := JSNum Rat × JSNum Rat × JSNum Rat

/-- `readColor`. -/
def readColor (tok : List String) : JSColor :=
  (jsPlus (tok.get? 1), jsPlus (tok.get? 2), jsPlus (tok.get? 3))

/-- `THREE.NormalBlending` / `THREE.AdditiveBlending`. -/
inductive BlendMode where
  | normalBlending
  | additiveBlending
deriving DecidableEq, Repr

/-- A `THREE.MeshPhongMaterial` by the fields the parser writes.  Texture
handles are the resolved `texturePath + texName` strings. -/
structure PhongMaterial where
  name : Option String
  color : JSColor
  specular : JSColor
  shininess : JSNum Rat
  emissive : JSColor
  transparent : Bool
  blending : BlendMode
  map : Option String
  emissiveMap : Option String
  emissiveIntensity : JSNum Rat
deriving DecidableEq, Repr

/-- `new THREE.MeshPhongMaterial({ name: matName, transparent: true })`
with THREE's defaults (white base colour, specular `0x111111`,
shininess 30, black emissive, emissive intensity 1). -/
def defaultPassMaterial (matName : Option String) : PhongMaterial :=
  { name := matName,
    color := (.fin 1, .fin 1, .fin 1),
    specular := (.fin (17 / 255), .fin (17 / 255), .fin (17 / 255)),
    shininess := .fin 30,
    emissive := (.fin 0, .fin 0, .fin 0),
    transparent := true,
    blending := .normalBlending,
    map := none,
    emissiveMap := none,
    emissiveIntensity := .fin 1 }

/-- Errors thrown while parsing a material script. -/
inductive MatParseErr where
  /-- `eat`'s `DotMaterialError`: its message is
  `Expected "<token>" but got "<line>"`, quoting the line it read
  (`none` renders as `undefined` at end of input). -/
  | expectedToken (token : String) (got : Option String)
  /-- A JavaScript runtime `TypeError` (`undefined.split`,
  `null.flipY`); it carries no information about the source line. -/
  | typeError
  /-- Artifact of the bounded-recursion embedding; every theorem supplies
  sufficient fuel, so it never occurs in the statements below. -/
  | fuelExhausted
deriving DecidableEq, Repr

/-- `eat(token)`: read the next line and require it to start with
`token`. -/
def eat (token : String) : List String → Except MatParseErr (List String)
  | [] => .error (.expectedToken token none)
  | l :: rest =>
      if jsStartsWith (jsTrim l) token then .ok rest
      else .error (.expectedToken token (some (jsTrim l)))

/-- `loadTex`: `texName ? textureLoader.load(texturePath + texName) : null`. -/
def loadTex (texturePath : String) (texName : Option String) : Option String :=
  match texName with
  | some n => if n = "" then none else some (texturePath ++ n)
  | none => none

/-- The `case 'texture':` body of `handleTextureUnit`: the first texture of
the pass becomes the diffuse map, the second the emissive map (setting the
emissive colour to white and the emissive intensity to 1), any further
texture leaves the material unchanged.  A missing texture name makes
`loadTex` return `null` and the subsequent `.flipY` write throws a
`TypeError`. -/
def applyTextureCommand (texturePath : String)
    (st : PhongMaterial × Bool × Bool) (texName : Option String) :
    Except MatParseErr (PhongMaterial × Bool × Bool) :=
  let m := st.1
  let diffuseSet := st.2.1
  let emissiveSet := st.2.2
  if !diffuseSet then
    match loadTex texturePath texName with
    | none => .error .typeError
    | some tex => .ok ({ m with map := some tex }, true, emissiveSet)
  else if !emissiveSet then
    match loadTex texturePath texName with
    | none => .error .typeError
    | some tex =>
        .ok ({ m with emissiveMap := some tex,
                      emissiveIntensity := .fin 1,
                      emissive := (.fin 1, .fin 1, .fin 1) },
             diffuseSet, true)
  else
    .ok st

/-- The command loop of `handleTextureUnit` (after its `eat('{')`):
`while (peek() !== '}') { const t = next().split(/\s+/); switch (t[0]) ... }`
followed by `eat('}')` — at end of input `next()` is `undefined` and
`.split` throws a `TypeError`. -/
def textureUnitLoop (texturePath : String) :
    (PhongMaterial × Bool × Bool) → List String →
    Except MatParseErr ((PhongMaterial × Bool × Bool) × List String)
  | _, [] => .error .typeError
  | st, l :: rest =>
      let t := jsTrim l
      if t = "\x7d" then .ok (st, rest)
      else
        let ts := jsWords t
        match ts.head? with
        | some "texture" =>
            match applyTextureCommand texturePath st (ts.get? 1) with
            | .error err => .error err
            | .ok st1 => textureUnitLoop texturePath st1 rest
        | _ => textureUnitLoop texturePath st rest

/-- The command loop of `parsePassBlock` (after `eat('pass'); eat('{')`):
dispatch on `tokens[0]`, `texture_unit` recursing into
`handleTextureUnit`; exit on a `'}'` line (then consumed by `eat('}')`);
at end of input `next().split` throws a `TypeError`. -/
def passLoop (texturePath : String) :
    Nat → PhongMaterial → Bool → Bool → List String →
    Except MatParseErr (PhongMaterial × List String)
  | 0, _, _, _, _ => .error .fuelExhausted
  | _ + 1, _, _, _, [] => .error .typeError
  | fuel + 1, m, dSet, eSet, l :: rest =>
      let t := jsTrim l
      if t = "\x7d" then .ok (m, rest)
      else
        let tokens := jsWords t
        match tokens.head? with
        | some "diffuse" =>
            passLoop texturePath fuel { m with color := readColor tokens } dSet eSet rest
        | some "ambient" =>
            passLoop texturePath fuel { m with color := readColor tokens } dSet eSet rest
        | some "specular" =>
            passLoop texturePath fuel
              { m with specular := readColor tokens,
                       shininess := jsOrNum (jsPlus (tokens.get? 4)) 30 }
              dSet eSet rest
        | some "emissive" =>
            passLoop texturePath fuel { m with emissive := readColor tokens } dSet eSet rest
        | some "scene_blend" =>
            passLoop texturePath fuel
              { m with transparent := true,
                       blending := if tokens.get? 1 = some "add" then .additiveBlending
                                   else .normalBlending }
              dSet eSet rest
        | some "texture_unit" =>
            match eat "\x7b" rest with
            | .error err => .error err
            | .ok rest1 =>
                match textureUnitLoop texturePath (m, dSet, eSet) rest1 with
                | .error err => .error err
                | .ok (st1, rest2) =>
                    passLoop texturePath fuel st1.1 st1.2.1 st1.2.2 rest2
        | _ => passLoop texturePath fuel m dSet eSet rest

/-- `parsePassBlock`: `eat('pass'); eat('{')`, the command loop, and the
assembled `MeshPhongMaterial`. -/
def parsePassBlock (texturePath : String) :
    Nat → Option String → List String →
    Except MatParseErr (PhongMaterial × List String)
  | 0, _, _ => .error .fuelExhausted
  | fuel + 1, matName, lines =>
      match eat "pass" lines with
      | .error err => .error err
      | .ok rest =>
          match eat "\x7b" rest with
          | .error err => .error err
          | .ok rest1 =>
              passLoop texturePath fuel (defaultPassMaterial matName) false false rest1

/-- The loop of `parseTechniqueBlock` (after `eat('technique'); eat('{')`):
a `pass` keyword recurses into `parsePassBlock` (which consumes the `pass`
line), anything else is skipped; at end of input `peek().split` throws a
`TypeError`. -/
def techniqueLoop (texturePath : String) :
    Nat → Option String → List PhongMaterial → List String →
    Except MatParseErr (List PhongMaterial × List String)
  | 0, _, _, _ => .error .fuelExhausted
  | _ + 1, _, _, [] => .error .typeError
  | fuel + 1, matName, acc, l :: rest =>
      let t := jsTrim l
      if t = "\x7d" then .ok (acc, rest)
      else
        match (jsWords t).head? with
        | some "pass" =>
            match parsePassBlock texturePath fuel matName (l :: rest) with
            | .error err => .error err
            | .ok (m, rest1) => techniqueLoop texturePath fuel matName (acc ++ [m]) rest1
        | _ => techniqueLoop texturePath fuel matName acc rest

/-- `parseTechniqueBlock`. -/
def parseTechniqueBlock (texturePath : String) :
    Nat → Option String → List String →
    Except MatParseErr (List PhongMaterial × List String)
  | 0, _, _ => .error .fuelExhausted
  | fuel + 1, matName, lines =>
      match eat "technique" lines with
      | .error err => .error err
      | .ok rest =>
          match eat "\x7b" rest with
          | .error err => .error err
          | .ok rest1 => techniqueLoop texturePath fuel matName [] rest1

/-- The loop of `parseMaterialBlock` (after `eat('{')`). -/
def materialLoop (texturePath : String) :
    Nat → Option String → List PhongMaterial → List String →
    Except MatParseErr (List PhongMaterial × List String)
  | 0, _, _, _ => .error .fuelExhausted
  | _ + 1, _, _, [] => .error .typeError
  | fuel + 1, matName, acc, l :: rest =>
      let t := jsTrim l
      if t = "\x7d" then .ok (acc, rest)
      else
        match (jsWords t).head? with
        | some "technique" =>
            match parseTechniqueBlock texturePath fuel matName (l :: rest) with
            | .error err => .error err
            | .ok (ms, rest1) => materialLoop texturePath fuel matName (acc ++ ms) rest1
        | _ => materialLoop texturePath fuel matName acc rest

/-- `parseMaterialBlock` (called after the `material <name>` line was
consumed by the top-level loop). -/
def parseMaterialBlock (texturePath : String) :
    Nat → Option String → List String →
    Except MatParseErr (List PhongMaterial × List String)
  | 0, _, _ => .error .fuelExhausted
  | fuel + 1, matName, lines =>
      match eat "\x7b" lines with
      | .error err => .error err
      | .ok rest => materialLoop texturePath fuel matName [] rest

/-- The top-level loop of `parse`: skip blank lines, dispatch on the
`material` keyword, collect the per-pass materials. -/
def parseLoop (texturePath : String) :
    Nat → List PhongMaterial → List String →
    Except MatParseErr (List PhongMaterial)
  | 0, _, _ => .error .fuelExhausted
  | _ + 1, acc, [] => .ok acc
  | fuel + 1, acc, l :: rest =>
      let line := jsTrim l
      if line = "" then parseLoop texturePath fuel acc rest
      else
        let ws := (jsWords line).take 2
        match ws.head? with
        | some "material" =>
            match parseMaterialBlock texturePath fuel (ws.get? 1) rest with
            | .error err => .error err
            | .ok (ms, rest1) => parseLoop texturePath fuel (acc ++ ms) rest1
        | _ => parseLoop texturePath fuel acc rest

/-- `DotMaterialLoader.parse(text, texturePath)` over the split line list,
with a recursion budget. -/
def parseMaterialScript (texturePath : String) (lines : List String)
    (fuel : Nat) : Except MatParseErr (List PhongMaterial) :=
  parseLoop texturePath fuel [] lines

/-- The sequence of `texture` commands a pass encounters across all of its
`texture_unit` blocks, applied in order through
`applyTextureCommand` (the `case 'texture':` body). -/
def foldTextureCommands (texturePath : String) :
    (PhongMaterial × Bool × Bool) → List (Option String) →
    Except MatParseErr (PhongMaterial × Bool × Bool)
  | st, [] => .ok st
  | st, n :: ns =>
      match applyTextureCommand texturePath st n with
      | .error err => .error err
      | .ok st1 => foldTextureCommands texturePath st1 ns

/-- Once both texture slots are taken, further texture commands leave the
material unchanged. -/
theorem foldTextureCommands_done (tp : String) (st : PhongMaterial × Bool × Bool)
    (h1 : st.2.1 = true) (h2 : st.2.2 = true) :
    ∀ names : List (Option String), foldTextureCommands tp st names = .ok st := by
  intro names
  induction names with
  | nil => rfl
  | cons n ns ih =>
      simp [foldTextureCommands, applyTextureCommand, h1, h2, ih]

/-- Claim C7: (1) for every pass, folding the texture commands encountered
across its `texture_unit` blocks assigns the first texture as the diffuse
map and the second as the emissive map — setting the emissive colour to
white and the emissive-intensity to 1 when an emissive map is present —
and ignores all further textures; (2) concretely, a pass with two
`texture_unit` blocks parsed by the full grammar parser produces exactly
that material. -/
theorem c7_texture_slots :
    (∀ (tp : String) (mn : Option String) (names : List String),
      (∀ nm ∈ names, nm ≠ "") →
      ∃ m : PhongMaterial, ∃ d e : Bool,
        foldTextureCommands tp (defaultPassMaterial mn, false, false)
          (names.map some) = .ok (m, d, e) ∧
        m.map = names.head?.map (fun nm => tp ++ nm) ∧
        m.emissiveMap = (names.get? 1).map (fun nm => tp ++ nm) ∧
        (2 ≤ names.length →
          m.emissive = (.fin 1, .fin 1, .fin 1) ∧ m.emissiveIntensity = .fin 1)) ∧
    (parseMaterialScript "tex/"
        ["material Metal", "\x7b", "technique", "\x7b", "pass", "\x7b",
         "texture_unit", "\x7b", "texture a.png", "\x7d",
         "texture_unit", "\x7b", "texture b.png", "\x7d",
         "\x7d", "\x7d", "\x7d"] 100 =
      .ok [{ defaultPassMaterial (some "Metal") with
               map := some "tex/a.png",
               emissiveMap := some "tex/b.png",
               emissive := (.fin 1, .fin 1, .fin 1) }]) := by
  constructor
  · intro tp mn names hne
    rcases names with _ | ⟨a, _ | ⟨b, rest⟩⟩
    · refine ⟨defaultPassMaterial mn, false, false, rfl, rfl, rfl, ?_⟩
      intro h
      exact absurd h (by norm_num)
    · have ha : a ≠ "" := hne a (by simp)
      have hload : loadTex tp (some a) = some (tp ++ a) := by
        simp [loadTex, ha]
      refine ⟨{ defaultPassMaterial mn with map := some (tp ++ a) }, true, false,
        ?_, rfl, rfl, ?_⟩
      · simp [foldTextureCommands, applyTextureCommand, hload]
      · intro h
        exact absurd h (by norm_num)
    · have ha : a ≠ "" := hne a (by simp)
      have hb : b ≠ "" := hne b (by simp)
      have hloada : loadTex tp (some a) = some (tp ++ a) := by simp [loadTex, ha]
      have hloadb : loadTex tp (some b) = some (tp ++ b) := by simp [loadTex, hb]
      refine ⟨{ defaultPassMaterial mn with
                  map := some (tp ++ a),
                  emissiveMap := some (tp ++ b),
                  emissiveIntensity := .fin 1,
                  emissive := (.fin 1, .fin 1, .fin 1) }, true, true, ?_, rfl, rfl,
        fun _ => ⟨rfl, rfl⟩⟩
      have hdone := foldTextureCommands_done tp
        ({ defaultPassMaterial mn with
             map := some (tp ++ a),
             emissiveMap := some (tp ++ b),
             emissiveIntensity := .fin 1,
             emissive := (.fin 1, .fin 1, .fin 1) }, true, true) rfl rfl
        (rest.map some)
      simp [foldTextureCommands, applyTextureCommand, hloada, hloadb, hdone]
  · rfl

/-- Concrete instantiation of the universally quantified part of
`c7_texture_slots`: two textures in order become the diffuse and the
emissive map. -/
theorem c7_texture_slots_witness :
    ∃ m : PhongMaterial, ∃ d e : Bool,
      foldTextureCommands "tex/" (defaultPassMaterial (some "Metal"), false, false)
        [some "a.png", some "b.png"] = .ok (m, d, e) ∧
      m.map = some "tex/a.png" ∧ m.emissiveMap = some "tex/b.png" := by
  obtain ⟨m, d, e, hfold, hmap, hemap, _⟩ :=
    c7_texture_slots.1 "tex/" (some "Metal") ["a.png", "b.png"] (by decide)
  exact ⟨m, d, e, hfold, hmap.trans rfl, hemap.trans rfl⟩

/-- Claim C8 (counterexample): the claim's own example — a pass block left
unterminated at end of input — does not produce a parse error that reports
the offending line: the parser crashes with a JavaScript `TypeError`
(`next()` is `undefined`, so `.split` throws), which carries no line
information at all. -/
theorem c8_counterexample :
    parseMaterialScript ""
      ["material Bad", "\x7b", "technique", "\x7b", "pass", "\x7b",
       "diffuse 1 0 0"] 100 = .error .typeError := rfl

/-- Claim C8 (amended): when the line at an expected-delimiter position
exists but does not start with the expected token, `eat` raises a
`DotMaterialError` whose message quotes that offending line (at end of
input it quotes `undefined`); input that ends *inside* a block body — such
as the unterminated pass block — instead fails fatally with a `TypeError`
that reports no line.  Concretely, a material block whose `{` line is
missing yields the error quoting the line found there. -/
theorem c8_delimiter_error :
    (∀ (token l : String) (rest : List String),
      jsStartsWith (jsTrim l) token = false →
      eat token (l :: rest) = .error (.expectedToken token (some (jsTrim l)))) ∧
    (∀ token : String, eat token [] = .error (.expectedToken token none)) ∧
    (parseMaterialScript "" ["material Bad", "technique"] 100 =
      .error (.expectedToken "\x7b" (some "technique"))) := by
  refine ⟨?_, fun _ => rfl, rfl⟩
  intro token l rest h
  simp [eat, h]

/-- Concrete instantiation of `c8_delimiter_error`: expecting `pass` but
finding a stray line quotes that line in the error. -/
theorem c8_delimiter_error_witness :
    eat "pass" ["diffuse 1 0 0", "\x7d"] =
      .error (.expectedToken "pass" (some "diffuse 1 0 0")) := by
  exact c8_delimiter_error.1 "pass" "diffuse 1 0 0" ["\x7d"] (by decide)

/-! ## The rotation decoder (`#attrQuaternion`, lines 1427-1495)

Scalars are JavaScript doubles; they are modelled as `JSNum ℝ` — NaN,
signed infinities, or an idealised real — with IEEE-style arithmetic on the
special values.  The decoder's branch structure, its error checks and its
numeric formulas are transliterated from the source and from the `THREE`
quaternion/vector methods it calls (`Quaternion.normalize`,
`Quaternion.setFromAxisAngle`, `Quaternion.setFromEuler` for order `XYZ`,
`Vector3.normalize`). -/

/-- JavaScript doubles over idealised reals. -/
abbrev JR := JSNum Real

/-- IEEE addition on the special values. -/
noncomputable def jadd : JR → JR → JR
  | .nan, _ => .nan
  | _, .nan => .nan
  | .inf s, .inf t => if s = t then .inf s else .nan
  | .inf s, .fin _ => .inf s
  | .fin _, .inf s => .inf s
  | .fin a, .fin b => .fin (a + b)

/-- IEEE negation. -/
noncomputable def jneg : JR → JR
  | .nan => .nan
  | .inf s => .inf (!s)
  | .fin a => .fin (-a)

/-- IEEE subtraction (`a - b = a + (-b)`). -/
noncomputable def jsub (a b : JR) : JR := jadd a (jneg b)

/-- IEEE multiplication on the special values. -/
noncomputable def jmul : JR → JR → JR
  | .nan, _ => .nan
  | _, .nan => .nan
  | .inf s, .inf t => .inf (s == t)
  | .inf s, .fin a =>
      if a = 0 then .nan else .inf (if 0 < a then s else !s)
  | .fin a, .inf s =>
      if a = 0 then .nan else .inf (if 0 < a then s else !s)
  | .fin a, .fin b => .fin (a * b)

/-- IEEE division on the special values (signed zeroes are collapsed). -/
noncomputable def jdiv : JR → JR → JR
  | .nan, _ => .nan
  | _, .nan => .nan
  | .inf _, .inf _ => .nan
  | .inf s, .fin a => if 0 ≤ a then .inf s else .inf (!s)
  | .fin _, .inf _ => .fin 0
  | .fin a, .fin b =>
      if b = 0 then
        (if a = 0 then .nan else .inf (decide (0 < a)))
      else .fin (a / b)

/-- `Math.sqrt`. -/
noncomputable def jsqrt : JR → JR
  | .nan => .nan
  | .inf true => .inf true
  | .inf false => .nan
  | .fin a => if a < 0 then .nan else .fin (Real.sqrt a)

/-- `Math.sin`. -/
noncomputable def jsin : JR → JR
  | .fin a => .fin (Real.sin a)
  | _ => .nan

/-- `Math.cos`. -/
noncomputable def jcos : JR → JR
  | .fin a => .fin (Real.cos a)
  | _ => .nan

/-- A `THREE.Quaternion` holding JavaScript doubles. -/
structure JQuat where
  x : JR
  y : JR
  z : JR
  w : JR

/-- A `THREE.Vector3` holding JavaScript doubles. -/
structure JVec3 where
  x : JR
  y : JR
  z : JR

/-- `THREE.Quaternion.lengthSq`: `x * x + y * y + z * z + w * w`. -/
noncomputable def jqLengthSq (q : JQuat) : JR :=
  jadd (jadd (jadd (jmul q.x q.x) (jmul q.y q.y)) (jmul q.z q.z)) (jmul q.w q.w)

/-- The identity quaternion `new THREE.Quaternion()`. -/
def jqIdentity : JQuat := ⟨.fin 0, .fin 0, .fin 0, .fin 1⟩

/-- `THREE.Quaternion.normalize`:
`let l = this.length(); if (l === 0) { identity } else { l = 1 / l; scale }`. -/
noncomputable def jqNormalize (q : JQuat) : JQuat :=
  let l := jsqrt (jqLengthSq q)
  if l = .fin 0 then jqIdentity
  else
    let li := jdiv (.fin 1) l
    ⟨jmul q.x li, jmul q.y li, jmul q.z li, jmul q.w li⟩

/-- `THREE.Vector3.lengthSq`: `x * x + y * y + z * z`. -/
noncomputable def jvLengthSq (v : JVec3) : JR :=
  jadd (jadd (jmul v.x v.x) (jmul v.y v.y)) (jmul v.z v.z)

/-- `THREE.Vector3.normalize`: `divideScalar(this.length() || 1)`, where
`divideScalar(s)` multiplies by `1 / s`. -/
noncomputable def jvNormalize (v : JVec3) : JVec3 :=
  let l := jsqrt (jvLengthSq v)
  let d := if l.falsy then .fin 1 else l
  let inv := jdiv (.fin 1) d
  ⟨jmul v.x inv, jmul v.y inv, jmul v.z inv⟩

/-- `THREE.Quaternion.setFromAxisAngle` (axis assumed normalised):
`halfAngle = angle / 2, s = sin(halfAngle)`;
`(axis.x * s, axis.y * s, axis.z * s, cos(halfAngle))`. -/
noncomputable def jSetFromAxisAngle (axis : JVec3) (angle : JR) : JQuat :=
  let halfAngle := jdiv angle (.fin 2)
  let s := jsin halfAngle
  ⟨jmul axis.x s, jmul axis.y s, jmul axis.z s, jcos halfAngle⟩

/-- `THREE.Quaternion.setFromEuler` for order `'XYZ'`. -/
noncomputable def jSetFromEulerXYZ (ex ey ez : JR) : JQuat :=
  let c1 := jcos (jdiv ex (.fin 2))
  let c2 := jcos (jdiv ey (.fin 2))
  let c3 := jcos (jdiv ez (.fin 2))
  let s1 := jsin (jdiv ex (.fin 2))
  let s2 := jsin (jdiv ey (.fin 2))
  let s3 := jsin (jdiv ez (.fin 2))
  ⟨jadd (jmul (jmul s1 c2) c3) (jmul (jmul c1 s2) s3),
   jsub (jmul (jmul c1 s2) c3) (jmul (jmul s1 c2) s3),
   jadd (jmul (jmul c1 c2) s3) (jmul (jmul s1 s2) c3),
   jsub (jmul (jmul c1 c2) c3) (jmul (jmul s1 s2) s3)⟩

/-- A `<rotation>` / `<rotate>` element, by the attributes and children
`#attrQuaternion` reads: explicit quaternion components, an `angle`
attribute or `<angle value=...>` child, a flat `axisX/axisY/axisZ`
attribute triple or an `<axis x= y= z=>` child, and per-axis Euler
attributes.  Each attribute is the `parseFloat` of its text when present. -/
structure RotationNode where
  qx : Option JR
  qy : Option JR
  qz : Option JR
  qw : Option JR
  angleAttr : Option JR
  angleElem : Option (Option JR)
  axisX : Option JR
  axisY : Option JR
  axisZ : Option JR
  axisElem : Option (Option JR × Option JR × Option JR)
  angleX : Option JR
  angleY : Option JR
  angleZ : Option JR

/-- The angle of the axis-angle branch:
`angleAttr !== null ? parseFloat(angleAttr) : #attrFloat(angleElem, 'value', 0)`. -/
def readAngle (node : RotationNode) : JR :=
  match node.angleAttr with
  | some a => a
  | none => (node.angleElem.getD none).getD (.fin 0)

/-- The axis of the axis-angle branch: flat attributes when `axisX` is
present (defaults `0, 0, 1`), else the `<axis>` child (same defaults,
also when the child is missing). -/
def readAxis (node : RotationNode) : JVec3 :=
  if node.axisX.isSome then
    ⟨node.axisX.getD (.fin 0), node.axisY.getD (.fin 0), node.axisZ.getD (.fin 1)⟩
  else
    match node.axisElem with
    | some (x, y, z) => ⟨x.getD (.fin 0), y.getD (.fin 0), z.getD (.fin 1)⟩
    | none => ⟨.fin 0, .fin 0, .fin 1⟩

/-- `Math.PI / 180` (the source's `degToRad`). -/
noncomputable def degToRad : JR := .fin (Real.pi / 180)

/-- `#attrQuaternion`: resolve one quaternion from a `<rotation>`-like
element.  Branch priority: explicit quaternion (on `hasAttribute('qx')`),
then axis-angle (on an `angle` attribute or child), then Euler degrees
(on any of `angleX/angleY/angleZ`); a missing node or an unknown format
yields the identity quaternion. -/
noncomputable def attrQuaternion (n : Option RotationNode) :
    Except OgreMaxError JQuat :=
  match n with
  | none => .ok jqIdentity
  | some node =>
      if node.qx.isSome then
        let vqx := node.qx.getD .nan
        let vqy := node.qy.getD .nan
        let vqz := node.qz.getD .nan
        let vqw := node.qw.getD .nan
        if vqx.isNaN || vqy.isNaN || vqz.isNaN || vqw.isNaN then
          .error ⟨.formatErr, "Invalid quaternion component"⟩
        else
          .ok (jqNormalize ⟨vqx, vqy, vqz, vqw⟩)
      else if node.angleAttr.isSome || node.angleElem.isSome then
        let angle := readAngle node
        let axis := readAxis node
        if !angle.isFinite || jvLengthSq axis = .fin 0 then
          .error ⟨.formatErr, "Invalid axis-angle rotation"⟩
        else
          .ok (jSetFromAxisAngle (jvNormalize axis) angle)
      else if node.angleX.isSome || node.angleY.isSome || node.angleZ.isSome then
        .ok (jSetFromEulerXYZ
          (jmul (node.angleX.getD (.fin 0)) degToRad)
          (jmul (node.angleY.getD (.fin 0)) degToRad)
          (jmul (node.angleZ.getD (.fin 0)) degToRad))
      else
        .ok jqIdentity

/-! ### Pure real-number semantics of the quaternion formulas

On finite inputs the IEEE layer agrees with these plain real-number
functions, which the unit-length and composition statements are about. -/

/-- A quaternion over the reals. -/
structure RQuat where
  x : Real
  y : Real
  z : Real
  w : Real

/-- `THREE.Quaternion.multiplyQuaternions(a, b)`. -/
noncomputable def qmulR (a b : RQuat) : RQuat :=
  ⟨a.x * b.w + a.w * b.x + a.y * b.z - a.z * b.y,
   a.y * b.w + a.w * b.y + a.z * b.x - a.x * b.z,
   a.z * b.w + a.w * b.z + a.x * b.y - a.y * b.x,
   a.w * b.w - a.x * b.x - a.y * b.y - a.z * b.z⟩

/-- Squared norm of a real quaternion. -/
noncomputable def qnormSq (q : RQuat) : Real :=
  q.x * q.x + q.y * q.y + q.z * q.z + q.w * q.w

/-- The quaternion has unit length. -/
def unitQuat (q : RQuat) : Prop := qnormSq q = 1

/-- `Quaternion.normalize` over the reals. -/
noncomputable def qnormalizeR (q : RQuat) : RQuat :=
  if Real.sqrt (qnormSq q) = 0 then ⟨0, 0, 0, 1⟩
  else ⟨q.x * (1 / Real.sqrt (qnormSq q)), q.y * (1 / Real.sqrt (qnormSq q)),
        q.z * (1 / Real.sqrt (qnormSq q)), q.w * (1 / Real.sqrt (qnormSq q))⟩

/-- `Vector3.normalize` over the reals (`length() || 1`). -/
noncomputable def vNormalizeR (x y z : Real) : Real × Real × Real :=
  if Real.sqrt (x * x + y * y + z * z) = 0 then (x * (1 / 1), y * (1 / 1), z * (1 / 1))
  else (x * (1 / Real.sqrt (x * x + y * y + z * z)),
        y * (1 / Real.sqrt (x * x + y * y + z * z)),
        z * (1 / Real.sqrt (x * x + y * y + z * z)))

/-- `Quaternion.setFromAxisAngle` over the reals. -/
noncomputable def axisAngleR (a : Real × Real × Real) (t : Real) : RQuat :=
  ⟨a.1 * Real.sin (t / 2), a.2.1 * Real.sin (t / 2), a.2.2 * Real.sin (t / 2),
   Real.cos (t / 2)⟩

/-- `Quaternion.setFromEuler` (`'XYZ'`) over the reals. -/
noncomputable def eulerXYZR (x y z : Real) : RQuat :=
  ⟨Real.sin (x / 2) * Real.cos (y / 2) * Real.cos (z / 2) +
     Real.cos (x / 2) * Real.sin (y / 2) * Real.sin (z / 2),
   Real.cos (x / 2) * Real.sin (y / 2) * Real.cos (z / 2) -
     Real.sin (x / 2) * Real.cos (y / 2) * Real.sin (z / 2),
   Real.cos (x / 2) * Real.cos (y / 2) * Real.sin (z / 2) +
     Real.sin (x / 2) * Real.sin (y / 2) * Real.cos (z / 2),
   Real.cos (x / 2) * Real.cos (y / 2) * Real.cos (z / 2) -
     Real.sin (x / 2) * Real.sin (y / 2) * Real.sin (z / 2)⟩

/-- Rotation by `t` about the X axis. -/
noncomputable def rotXR (t : Real) : RQuat := ⟨Real.sin (t / 2), 0, 0, Real.cos (t / 2)⟩

/-- Rotation by `t` about the Y axis. -/
noncomputable def rotYR (t : Real) : RQuat := ⟨0, Real.sin (t / 2), 0, Real.cos (t / 2)⟩

/-- Rotation by `t` about the Z axis. -/
noncomputable def rotZR (t : Real) : RQuat := ⟨0, 0, Real.sin (t / 2), Real.cos (t / 2)⟩

/-- Inclusion of a real quaternion into the JavaScript-number layer. -/
def toJQuat (q : RQuat) : JQuat := ⟨.fin q.x, .fin q.y, .fin q.z, .fin q.w⟩

/-- Inclusion of a real vector into the JavaScript-number layer. -/
def toJVec3 (v : Real × Real × Real) : JVec3 := ⟨.fin v.1, .fin v.2.1, .fin v.2.2⟩

theorem jdiv_fin (a b : Real) (hb : b ≠ 0) : jdiv (.fin a) (.fin b) = .fin (a / b) := by
  simp [jdiv, hb]

theorem jsqrt_fin_nonneg (a : Real) (h : 0 ≤ a) :
    jsqrt (.fin a) = .fin (Real.sqrt a) := by
  simp [jsqrt, not_lt.mpr h]

theorem jsub_fin (a b : Real) : jsub (.fin a) (.fin b) = .fin (a - b) := by
  simp [jsub, jneg, jadd, sub_eq_add_neg]

/-- On finite components the IEEE normalisation is the real one. -/
theorem jqNormalize_fin (a b c d : Real) :
    jqNormalize ⟨.fin a, .fin b, .fin c, .fin d⟩ =
      toJQuat (qnormalizeR ⟨a, b, c, d⟩) := by
  have hS : (0 : Real) ≤ a * a + b * b + c * c + d * d := by
    nlinarith [mul_self_nonneg a, mul_self_nonneg b, mul_self_nonneg c, mul_self_nonneg d]
  have hlen : jqLengthSq ⟨.fin a, .fin b, .fin c, .fin d⟩ =
      .fin (a * a + b * b + c * c + d * d) := rfl
  have hq : qnormSq ⟨a, b, c, d⟩ = a * a + b * b + c * c + d * d := rfl
  unfold jqNormalize qnormalizeR
  rw [hlen, hq, jsqrt_fin_nonneg _ hS]
  by_cases h : Real.sqrt (a * a + b * b + c * c + d * d) = 0
  · rw [if_pos (by simp [h]), if_pos h]
    rfl
  · rw [if_neg (by simp [h]), if_neg h]
    simp [jdiv_fin _ _ h, jmul, toJQuat]

/-- The real normalisation always yields a unit quaternion (the all-zero
input maps to the identity, which is unit). -/
theorem qnormalizeR_unit (q : RQuat) : unitQuat (qnormalizeR q) := by
  rcases q with ⟨a, b, c, d⟩
  have hS : (0 : Real) ≤ a * a + b * b + c * c + d * d := by
    nlinarith [mul_self_nonneg a, mul_self_nonneg b, mul_self_nonneg c, mul_self_nonneg d]
  have hq : qnormSq ⟨a, b, c, d⟩ = a * a + b * b + c * c + d * d := rfl
  unfold unitQuat qnormalizeR
  rw [hq]
  by_cases h : Real.sqrt (a * a + b * b + c * c + d * d) = 0
  · rw [if_pos h]
    unfold qnormSq
    norm_num
  · rw [if_neg h]
    have hSsq : Real.sqrt (a * a + b * b + c * c + d * d) *
        Real.sqrt (a * a + b * b + c * c + d * d) = a * a + b * b + c * c + d * d :=
      Real.mul_self_sqrt hS
    have hS0 : a * a + b * b + c * c + d * d ≠ 0 :=
      fun h0 => h ((Real.sqrt_eq_zero hS).mpr h0)
    unfold qnormSq
    calc
      a * (1 / Real.sqrt (a * a + b * b + c * c + d * d)) *
            (a * (1 / Real.sqrt (a * a + b * b + c * c + d * d))) +
          b * (1 / Real.sqrt (a * a + b * b + c * c + d * d)) *
            (b * (1 / Real.sqrt (a * a + b * b + c * c + d * d))) +
          c * (1 / Real.sqrt (a * a + b * b + c * c + d * d)) *
            (c * (1 / Real.sqrt (a * a + b * b + c * c + d * d))) +
          d * (1 / Real.sqrt (a * a + b * b + c * c + d * d)) *
            (d * (1 / Real.sqrt (a * a + b * b + c * c + d * d))) =
          (a * a + b * b + c * c + d * d) *
            (1 / (Real.sqrt (a * a + b * b + c * c + d * d) *
              Real.sqrt (a * a + b * b + c * c + d * d))) := by ring
      _ = 1 := by
          rw [hSsq]
          field_simp

/-- On finite components the IEEE vector normalisation is the real one. -/
theorem jvNormalize_fin (x y z : Real) :
    jvNormalize ⟨.fin x, .fin y, .fin z⟩ = toJVec3 (vNormalizeR x y z) := by
  have hS : (0 : Real) ≤ x * x + y * y + z * z := by
    nlinarith [mul_self_nonneg x, mul_self_nonneg y, mul_self_nonneg z]
  have hlen : jvLengthSq ⟨.fin x, .fin y, .fin z⟩ = .fin (x * x + y * y + z * z) := rfl
  unfold jvNormalize vNormalizeR
  rw [hlen, jsqrt_fin_nonneg _ hS]
  dsimp only
  by_cases h : Real.sqrt (x * x + y * y + z * z) = 0
  · have hf : (JSNum.fin (Real.sqrt (x * x + y * y + z * z)) : JR).falsy = true := by
      simp [JSNum.falsy, h]
    rw [hf, if_pos h]
    simp only [if_true]
    rw [jdiv_fin _ _ (one_ne_zero)]
    simp [jmul, toJVec3]
  · have hf : (JSNum.fin (Real.sqrt (x * x + y * y + z * z)) : JR).falsy = false := by
      simp [JSNum.falsy, h]
    rw [hf, if_neg h]
    simp only [Bool.false_eq_true, if_false]
    rw [jdiv_fin _ _ h]
    simp [jmul, toJVec3]

/-- The normalised axis has unit length when the squared length is
nonzero. -/
theorem vNormalizeR_unit (x y z : Real) (h : x * x + y * y + z * z ≠ 0) :
    (vNormalizeR x y z).1 * (vNormalizeR x y z).1 +
      (vNormalizeR x y z).2.1 * (vNormalizeR x y z).2.1 +
      (vNormalizeR x y z).2.2 * (vNormalizeR x y z).2.2 = 1 := by
  have hS : (0 : Real) ≤ x * x + y * y + z * z := by
    nlinarith [mul_self_nonneg x, mul_self_nonneg y, mul_self_nonneg z]
  have hs : Real.sqrt (x * x + y * y + z * z) ≠ 0 :=
    fun h0 => h ((Real.sqrt_eq_zero hS).mp h0)
  have hSsq : Real.sqrt (x * x + y * y + z * z) * Real.sqrt (x * x + y * y + z * z) =
      x * x + y * y + z * z := Real.mul_self_sqrt hS
  unfold vNormalizeR
  rw [if_neg hs]
  calc
    x * (1 / Real.sqrt (x * x + y * y + z * z)) * (x * (1 / Real.sqrt (x * x + y * y + z * z))) +
        y * (1 / Real.sqrt (x * x + y * y + z * z)) * (y * (1 / Real.sqrt (x * x + y * y + z * z))) +
        z * (1 / Real.sqrt (x * x + y * y + z * z)) * (z * (1 / Real.sqrt (x * x + y * y + z * z))) =
        (x * x + y * y + z * z) *
          (1 / (Real.sqrt (x * x + y * y + z * z) * Real.sqrt (x * x + y * y + z * z))) := by
      ring
    _ = 1 := by
        rw [hSsq]
        field_simp

/-- On finite inputs the IEEE axis-angle formula is the real one. -/
theorem jSetFromAxisAngle_fin (v : Real × Real × Real) (t : Real) :
    jSetFromAxisAngle (toJVec3 v) (.fin t) = toJQuat (axisAngleR v t) := by
  unfold jSetFromAxisAngle axisAngleR
  rw [jdiv_fin _ _ (two_ne_zero)]
  simp [jsin, jcos, jmul, toJVec3, toJQuat]

/-- An axis-angle rotation about a unit axis is a unit quaternion. -/
theorem axisAngleR_unit (a : Real × Real × Real) (t : Real)
    (h : a.1 * a.1 + a.2.1 * a.2.1 + a.2.2 * a.2.2 = 1) :
    unitQuat (axisAngleR a t) := by
  unfold unitQuat qnormSq axisAngleR
  have hsc := Real.sin_sq_add_cos_sq (t / 2)
  calc
    a.1 * Real.sin (t / 2) * (a.1 * Real.sin (t / 2)) +
        a.2.1 * Real.sin (t / 2) * (a.2.1 * Real.sin (t / 2)) +
        a.2.2 * Real.sin (t / 2) * (a.2.2 * Real.sin (t / 2)) +
        Real.cos (t / 2) * Real.cos (t / 2) =
        (a.1 * a.1 + a.2.1 * a.2.1 + a.2.2 * a.2.2) *
          (Real.sin (t / 2) ^ 2) + Real.cos (t / 2) ^ 2 := by ring
    _ = 1 := by rw [h, one_mul, hsc]

/-- An angle of `0` yields the identity quaternion for any axis. -/
theorem axisAngleR_zero (a : Real × Real × Real) :
    axisAngleR a 0 = ⟨0, 0, 0, 1⟩ := by
  unfold axisAngleR
  norm_num

/-- On finite inputs the IEEE Euler formula is the real one. -/
theorem jSetFromEulerXYZ_fin (x y z : Real) :
    jSetFromEulerXYZ (.fin x) (.fin y) (.fin z) = toJQuat (eulerXYZR x y z) := by
  unfold jSetFromEulerXYZ eulerXYZR
  rw [jdiv_fin _ _ (two_ne_zero), jdiv_fin _ _ (two_ne_zero), jdiv_fin _ _ (two_ne_zero)]
  simp [jsin, jcos, jmul, jsub_fin, toJQuat, jsub, jneg, jadd, sub_eq_add_neg]

/-- The `'XYZ'` Euler formula is the quaternion product of the per-axis
rotations in X, then Y, then Z order. -/
theorem eulerXYZR_decompose (x y z : Real) :
    eulerXYZR x y z = qmulR (rotXR x) (qmulR (rotYR y) (rotZR z)) := by
  unfold eulerXYZR qmulR rotXR rotYR rotZR
  simp only [RQuat.mk.injEq]
  refine ⟨by ring, by ring, by ring, by ring⟩

/-- Euler angles `(90, 0, 0)` in degrees give the 90-degree rotation about
the X axis. -/
theorem eulerXYZR_ninety :
    eulerXYZR (90 * (Real.pi / 180)) 0 0 = rotXR (Real.pi / 2) := by
  have h : (90 : Real) * (Real.pi / 180) = Real.pi / 2 := by ring
  rw [h]
  unfold eulerXYZR rotXR
  simp only [RQuat.mk.injEq]
  norm_num

/-- Claim C4 (counterexample): an explicit-quaternion encoding with the
non-finite component `qx = +Infinity` does *not* raise a Format error —
the guard uses `Number.isNaN`, which is false for infinities — and the
branch returns successfully with a garbage (`NaN`) quaternion.  The claim
states that any non-finite component is a Format error. -/
theorem c4_counterexample :
    attrQuaternion (some
      { qx := some (.inf true), qy := some (.fin 0), qz := some (.fin 0),
        qw := some (.fin 0), angleAttr := none, angleElem := none,
        axisX := none, axisY := none, axisZ := none, axisElem := none,
        angleX := none, angleY := none, angleZ := none }) =
      .ok ⟨.nan, .fin 0, .fin 0, .fin 0⟩ := by
  simp only [attrQuaternion, Option.isSome_some, if_true, Option.getD_some]
  rw [if_neg (by simp [JSNum.isNaN])]
  have hlen : jqLengthSq ⟨.inf true, .fin 0, .fin 0, .fin 0⟩ = .inf true := by
    simp [jqLengthSq, jmul, jadd]
  unfold jqNormalize
  rw [hlen]
  rw [show jsqrt (.inf true) = (.inf true : JR) from rfl]
  rw [if_neg (by simp)]
  simp [jdiv, jmul]

/-- Claim C4 (amended): the rotation decoder tries exactly three mutually
exclusive encodings in priority order.  (0) A missing rotation element
yields the identity quaternion without error.  (1) Explicit quaternion
components: a `NaN` component is a Format error (an infinite component is
*not* detected — see the counterexample); (2) with finite components the
result is the normalisation of the authored quaternion, which has unit
length.  (3) In the axis-angle encoding (flat attributes or sub-elements,
radians), a non-finite angle or a zero-squared-length axis is a Format
error; (4) otherwise the result is the axis-angle rotation about the
normalised axis — a unit quaternion — and an angle of `0` yields the
identity quaternion.  (5) The per-axis Euler fallback converts degrees to
radians and composes the X, Y and Z rotations in that order.  (6) When none
of the three encodings is present the identity quaternion is returned
without error.  (7) Euler angles `(90, 0, 0)` equal the 90-degree rotation
about the X axis. -/
theorem c4_rotation_decode :
    (attrQuaternion none = .ok jqIdentity) ∧
    (∀ node : RotationNode, node.qx.isSome = true →
      ((node.qx.getD .nan).isNaN || (node.qy.getD .nan).isNaN ||
        (node.qz.getD .nan).isNaN || (node.qw.getD .nan).isNaN) = true →
      attrQuaternion (some node) = .error ⟨.formatErr, "Invalid quaternion component"⟩) ∧
    (∀ (node : RotationNode) (a b c d : Real),
      node.qx = some (.fin a) → node.qy = some (.fin b) →
      node.qz = some (.fin c) → node.qw = some (.fin d) →
      attrQuaternion (some node) = .ok (toJQuat (qnormalizeR ⟨a, b, c, d⟩)) ∧
      unitQuat (qnormalizeR ⟨a, b, c, d⟩)) ∧
    (∀ node : RotationNode, node.qx = none →
      (node.angleAttr.isSome || node.angleElem.isSome) = true →
      ((readAngle node).isFinite = false ∨ jvLengthSq (readAxis node) = .fin 0) →
      attrQuaternion (some node) = .error ⟨.formatErr, "Invalid axis-angle rotation"⟩) ∧
    (∀ (node : RotationNode) (x y z t : Real),
      node.qx = none →
      (node.angleAttr.isSome || node.angleElem.isSome) = true →
      readAngle node = .fin t →
      readAxis node = ⟨.fin x, .fin y, .fin z⟩ →
      x * x + y * y + z * z ≠ 0 →
      attrQuaternion (some node) = .ok (toJQuat (axisAngleR (vNormalizeR x y z) t)) ∧
      unitQuat (axisAngleR (vNormalizeR x y z) t) ∧
      (t = 0 → axisAngleR (vNormalizeR x y z) t = ⟨0, 0, 0, 1⟩)) ∧
    (∀ (node : RotationNode) (ex ey ez : Real),
      node.qx = none → node.angleAttr = none → node.angleElem = none →
      (node.angleX.isSome || node.angleY.isSome || node.angleZ.isSome) = true →
      node.angleX.getD (.fin 0) = .fin ex →
      node.angleY.getD (.fin 0) = .fin ey →
      node.angleZ.getD (.fin 0) = .fin ez →
      attrQuaternion (some node) =
        .ok (toJQuat (eulerXYZR (ex * (Real.pi / 180)) (ey * (Real.pi / 180))
          (ez * (Real.pi / 180)))) ∧
      eulerXYZR (ex * (Real.pi / 180)) (ey * (Real.pi / 180)) (ez * (Real.pi / 180)) =
        qmulR (rotXR (ex * (Real.pi / 180)))
          (qmulR (rotYR (ey * (Real.pi / 180))) (rotZR (ez * (Real.pi / 180))))) ∧
    (∀ node : RotationNode, node.qx = none → node.angleAttr = none →
      node.angleElem = none → node.angleX = none → node.angleY = none →
      node.angleZ = none → attrQuaternion (some node) = .ok jqIdentity) ∧
    (eulerXYZR (90 * (Real.pi / 180)) 0 0 = rotXR (Real.pi / 2)) := by
  refine ⟨rfl, ?_, ?_, ?_, ?_, ?_, ?_, eulerXYZR_ninety⟩
  · intro node hsome hnan
    simp only [attrQuaternion]
    rw [if_pos hsome, if_pos hnan]
  · intro node a b c d hqx hqy hqz hqw
    refine ⟨?_, qnormalizeR_unit _⟩
    simp only [attrQuaternion, hqx, hqy, hqz, hqw, Option.isSome_some, if_true,
      Option.getD_some]
    rw [if_neg (by simp [JSNum.isNaN])]
    rw [jqNormalize_fin]
  · intro node hqx htrig hcond
    have hnotq : node.qx.isSome = false := by simp [hqx]
    have hc : (!(readAngle node).isFinite ||
        (jvLengthSq (readAxis node) = (.fin 0 : JR) : Bool)) = true := by
      rcases hcond with h | h
      · simp [h]
      · simp [h]
    simp only [attrQuaternion, hnotq, Bool.false_eq_true, if_false]
    rw [if_pos htrig, if_pos hc]
  · intro node x y z t hqx htrig hangle haxis hS0
    have hnotq : node.qx.isSome = false := by simp [hqx]
    have hc : (!(readAngle node).isFinite ||
        (jvLengthSq (readAxis node) = (.fin 0 : JR) : Bool)) = false := by
      rw [hangle, haxis]
      have hlen : jvLengthSq ⟨.fin x, .fin y, .fin z⟩ =
          .fin (x * x + y * y + z * z) := rfl
      simp [JSNum.isFinite, hlen, hS0]
    refine ⟨?_, axisAngleR_unit _ t (vNormalizeR_unit x y z hS0),
      fun ht => by rw [ht]; exact axisAngleR_zero _⟩
    simp only [attrQuaternion, hnotq, Bool.false_eq_true, if_false]
    rw [if_pos htrig, if_neg (by simp [hc])]
    rw [hangle, haxis, jvNormalize_fin, jSetFromAxisAngle_fin]
  · intro node ex ey ez hqx hA hE htrig hx hy hz
    have hnotq : node.qx.isSome = false := by simp [hqx]
    have hnota : (node.angleAttr.isSome || node.angleElem.isSome) = false := by
      simp [hA, hE]
    simp only [attrQuaternion, hnotq, Bool.false_eq_true, if_false, hnota]
    rw [if_pos htrig]
    rw [hx, hy, hz]
    refine ⟨?_, eulerXYZR_decompose _ _ _⟩
    rw [show jmul (.fin ex) degToRad = (.fin (ex * (Real.pi / 180)) : JR) from rfl,
        show jmul (.fin ey) degToRad = (.fin (ey * (Real.pi / 180)) : JR) from rfl,
        show jmul (.fin ez) degToRad = (.fin (ez * (Real.pi / 180)) : JR) from rfl,
        jSetFromEulerXYZ_fin]
  · intro node hqx hA hE hX hY hZ
    have hnotq : node.qx.isSome = false := by simp [hqx]
    have hnota : (node.angleAttr.isSome || node.angleElem.isSome) = false := by
      simp [hA, hE]
    have hnote : (node.angleX.isSome || node.angleY.isSome || node.angleZ.isSome) = false := by
      simp [hX, hY, hZ]
    simp only [attrQuaternion, hnotq, Bool.false_eq_true, if_false, hnota, hnote]

/-- Concrete instantiation of every hypothesis-bearing part of
`c4_rotation_decode`: a NaN component errors; `(0,0,3,4)` is normalised to
a unit quaternion; a zero axis errors; angle `0` about the X axis gives
the identity; Euler `(90,0,0)` takes the Euler branch; an empty rotation
element gives the identity. -/
theorem c4_rotation_decode_witness :
    attrQuaternion (some ⟨some .nan, none, none, none, none, none, none, none,
        none, none, none, none, none⟩) =
      .error ⟨.formatErr, "Invalid quaternion component"⟩ ∧
    (attrQuaternion (some ⟨some (.fin 0), some (.fin 0), some (.fin 3),
        some (.fin 4), none, none, none, none, none, none, none, none, none⟩) =
      .ok (toJQuat (qnormalizeR ⟨0, 0, 3, 4⟩)) ∧ unitQuat (qnormalizeR ⟨0, 0, 3, 4⟩)) ∧
    attrQuaternion (some ⟨none, none, none, none, some (.fin 1), none,
        some (.fin 0), some (.fin 0), some (.fin 0), none, none, none, none⟩) =
      .error ⟨.formatErr, "Invalid axis-angle rotation"⟩ ∧
    attrQuaternion (some ⟨none, none, none, none, some (.fin 0), none,
        some (.fin 1), some (.fin 0), some (.fin 0), none, none, none, none⟩) =
      .ok (toJQuat ⟨0, 0, 0, 1⟩) ∧
    attrQuaternion (some ⟨none, none, none, none, none, none, none, none, none,
        none, some (.fin 90), none, none⟩) =
      .ok (toJQuat (eulerXYZR (90 * (Real.pi / 180)) (0 * (Real.pi / 180))
        (0 * (Real.pi / 180)))) ∧
    attrQuaternion (some ⟨none, none, none, none, none, none, none, none, none,
        none, none, none, none⟩) = .ok jqIdentity := by
  obtain ⟨h0, h1, h2, h3, h4, h5, h6, h7⟩ := c4_rotation_decode
  refine ⟨?_, ?_, ?_, ?_, ?_, ?_⟩
  · exact h1 _ rfl rfl
  · exact h2 _ 0 0 3 4 rfl rfl rfl rfl
  · exact h3 _ rfl rfl (Or.inr (by norm_num [readAxis, jvLengthSq, jmul, jadd]))
  · have h := h4 ⟨none, none, none, none, some (.fin 0), none, some (.fin 1),
        some (.fin 0), some (.fin 0), none, none, none, none⟩ 1 0 0 0
      rfl rfl rfl rfl (by norm_num)
    rw [h.1, h.2.2 rfl]
  · exact (h5 ⟨none, none, none, none, none, none, none, none, none,
      none, some (.fin 90), none, none⟩ 90 0 0 rfl rfl rfl rfl rfl rfl rfl).1
  · exact h6 _ rfl rfl rfl rfl rfl rfl

end OgreMax
